import Mathlib

set_option maxRecDepth 40000

/-!
Verification development for the unipack-emails template-rendering service.

The source is a TypeScript/React-email code base: three email templates
(welcome, newsletter, password-reset), a rendering entry point
`renderEmailTemplate`, and an HTTP dispatcher (a Bun `fetch` handler in
`src/emails/welcome.tsx`, mirrored by `src/server/node-server.ts`).

Embedding conventions:
* JSON values coming from a request body are modelled by `Value`.
  JSON cannot express `undefined`, so absence of an object key is the
  only source of `undefined`; `Option Value` is used where a JS
  expression may be `undefined`.
* JS property access, truthiness, destructuring defaults and exceptions
  are modelled by explicit functions below; fallible steps return
  `Except String`, the error string standing for the thrown exception
  message.
* The serialization of a built document to HTML and plain text is
  performed by the external library (the react-email renderer), which is
  not part of this repository; those two functions are modelled from the
  specification (see the doc comments on `docHtmlPieces` and
  `docTextPieces`).
* JSON numbers are modelled as integers; no template or claim involves
  a fractional number.
-/

/-- A JSON-like runtime value (the shape of a parsed request body and of
a Data Bag). `vNull` is JSON null; absence of a key models `undefined`. -/
inductive Value where
  | vNull
  | vBool (b : Bool)
  | vNum (n : Int)
  | vStr (s : String)
  | vArr (elems : List Value)
  | vObj (fields : List (String × Value))

/-- JS property read `v[k]` for the template parameter keys. Returns
`none` for `undefined`. Property access on a primitive boxes it and finds
no own property named like a template parameter, hence `none`; `vNull`
is not handled here (reading a property of null throws, see `getMember`).
Parsed JSON objects have no duplicate keys, so first-match lookup is
exact. -/
def lookupField : Value → String → Option Value
  | .vObj fields, k => fields.lookup k
  | _, _ => none

/-- JS truthiness of a value. -/
def truthy : Value → Bool
  | .vNull => false
  | .vBool b => b
  | .vNum n => n != 0
  | .vStr s => s != ""
  | .vArr _ => true
  | .vObj _ => true

/-- JS member access `v.k` where reading a member of `null` throws a
TypeError, as in `emailRequest.format` on a JSON-null body or
`article.title` on a null array element. -/
def getMember (v : Value) (k : String) : Except String (Option Value) :=
  match v with
  | .vNull => .error ("TypeError: Cannot read properties of null (reading \x27" ++ k ++ "\x27)")
  | .vObj fields => .ok (fields.lookup k)
  | _ => .ok none

/-- Rendering a value as a React text child: strings verbatim, numbers
stringified, null and booleans render as nothing, plain objects throw
(React: Objects are not valid as a React child). An array child is
rendered element-wise by React; no template interpolates an array and no
claim depends on it, so the model conservatively reports it as
unsupported rather than recursing. -/
def renderChild : Value → Except String String
  | .vNull => .ok ""
  | .vBool _ => .ok ""
  | .vNum n => .ok (toString n)
  | .vStr s => .ok s
  | .vArr _ => .error "unmodelled: array interpolated as a React child"
  | .vObj _ => .error "Error: Objects are not valid as a React child"

/-- Rendering an optional value (possibly `undefined`) as a text child:
`undefined` renders as nothing. -/
def renderOpt : Option Value → Except String String
  | none => .ok ""
  | some v => renderChild v

/-- Stringification of a value used as an `href` attribute: strings
verbatim, numbers stringified, null/undefined/booleans drop the
attribute (modelled as the empty target). Array and object attribute
values do not occur in any modelled path. -/
def hrefOfValue : Value → Except String String
  | .vStr s => .ok s
  | .vNum n => .ok (toString n)
  | .vNull => .ok ""
  | .vBool _ => .ok ""
  | .vArr _ => .error "unmodelled: array as href attribute"
  | .vObj _ => .error "unmodelled: object as href attribute"

/-- ASCII lower-casing of one character, the effect of
`String.prototype.toLowerCase` on the company names occurring here. -/
def lowerChar (c : Char) : Char :=
  if 'A' ≤ c ∧ c ≤ 'Z' then Char.ofNat (c.toNat + 32) else c

/-- ASCII lower-casing of a character list. -/
def lowerChars : List Char → List Char
  | [] => []
  | c :: cs => lowerChar c :: lowerChars cs

/-- JS `v.toLowerCase()`: defined on strings, a TypeError otherwise
(`companyName.toLowerCase` in the password-reset footer). -/
def jsToLowerCase (v : Value) : Except String String :=
  match v with
  | .vStr s => .ok (String.mk (lowerChars s.data))
  | _ => .error "TypeError: companyName.toLowerCase is not a function"

/-- JS destructuring with a default, `{ k = dflt } = data`: the default
applies exactly when the property is absent (`undefined`); an explicit
null is kept. Property access on a primitive yields `undefined`, hence
the default. -/
def destructureDefault (data : Value) (k : String) (dflt : Value) : Value :=
  match lookupField data k with
  | some v => v
  | none => dflt

/-- Destructuring the props object itself throws on null
(`Template(null)` would fail before any default applies). The callers in
the source guard with `body.data || {}`, so this only matters when the
renderer is invoked directly. -/
def guardDestructure : Value → Except String Unit
  | .vNull => .error "TypeError: Cannot destructure properties of null"
  | _ => .ok ()

/-- Strict equality of a value with a string literal, `v === "s"`. -/
def isStrVal (v : Value) (s : String) : Bool :=
  match v with
  | .vStr t => t == s
  | _ => false

/-!
Document tree. The three templates nest containers at most three levels
deep (e.g. newsletter: content section > article section > button
container), so the tree is stratified: `Leaf` for leaf nodes, `Node1`
and `Node2` for the two possible container depths, and the document body
is a list of top-level `Node3` sections. Styles are the static style
maps of the source, rendered as inert inline-CSS strings.
-/

/-- A leaf of the document tree: a text block (`Text`), a bare text
child, a hyperlink button (`Button`), an inline link (`Link`) or a
horizontal rule (`Hr`). -/
inductive Leaf where
  | textBlock (style : String) (content : String)
  | rawText (content : String)
  | button (style : String) (href : String) (label : String)
  | linkText (style : String) (href : String) (label : String)
  | hr (style : String)
deriving DecidableEq

/-- A node one container level above the leaves. -/
inductive Node1 where
  | leaf (l : Leaf)
  | sect (style : String) (children : List Leaf)
deriving DecidableEq

/-- A node two container levels above the leaves. -/
inductive Node2 where
  | up (n : Node1)
  | sect (style : String) (children : List Node1)
deriving DecidableEq

/-- A top-level node of a template body. -/
inductive Node3 where
  | up (n : Node2)
  | sect (style : String) (children : List Node2)
deriving DecidableEq

/-- The document tree built by one render call: preview text, the body
and container styles, and the top-level sections. -/
structure EmailDoc where
  previewText : String
  bodyStyle : String
  containerStyle : String
  sections : List Node3
deriving DecidableEq

/-- Concatenation of a list of string pieces. -/
def concatAll : List String → String
  | [] => ""
  | s :: r => s ++ concatAll r

/-- Interleaves a newline separator between consecutive pieces. -/
def sepLines : List String → List String
  | [] => []
  | [s] => [s]
  | s :: r => s :: "\n" :: sepLines r

/-- Modelled from the spec: HTML pieces of a leaf. The serializer (the
external react-email renderer, not part of this repository) is modelled
from section 4.2 of the specification: each node kind has a fixed
deterministic rendering rule with the style inlined as a presentational
attribute, and the already-substituted text content is emitted
literally. -/
def leafHtmlPieces : Leaf → List String
  | .textBlock st c => ["<p style=\"", st, "\">", c, "</p>"]
  | .rawText c => [c]
  | .button st href label => ["<a href=\"", href, "\" style=\"", st, "\">", label, "</a>"]
  | .linkText st href label => ["<a href=\"", href, "\" style=\"", st, "\">", label, "</a>"]
  | .hr st => ["<hr style=\"", st, "\"/>"]

/-- HTML pieces of a list of leaves. -/
def leavesHtmlPieces : List Leaf → List String
  | [] => []
  | l :: r => leafHtmlPieces l ++ leavesHtmlPieces r

/-- Modelled from the spec: HTML pieces of a depth-1 node (containers
become block-level wrappers with the style inlined). -/
def node1HtmlPieces : Node1 → List String
  | .leaf l => leafHtmlPieces l
  | .sect st cs => ["<div style=\"", st, "\">"] ++ leavesHtmlPieces cs ++ ["</div>"]

/-- HTML pieces of a list of depth-1 nodes. -/
def nodes1HtmlPieces : List Node1 → List String
  | [] => []
  | n :: r => node1HtmlPieces n ++ nodes1HtmlPieces r

/-- Modelled from the spec: HTML pieces of a depth-2 node. -/
def node2HtmlPieces : Node2 → List String
  | .up n => node1HtmlPieces n
  | .sect st cs => ["<div style=\"", st, "\">"] ++ nodes1HtmlPieces cs ++ ["</div>"]

/-- HTML pieces of a list of depth-2 nodes. -/
def nodes2HtmlPieces : List Node2 → List String
  | [] => []
  | n :: r => node2HtmlPieces n ++ nodes2HtmlPieces r

/-- Modelled from the spec: HTML pieces of a top-level node. -/
def node3HtmlPieces : Node3 → List String
  | .up n => node2HtmlPieces n
  | .sect st cs => ["<div style=\"", st, "\">"] ++ nodes2HtmlPieces cs ++ ["</div>"]

/-- HTML pieces of a list of top-level nodes. -/
def nodes3HtmlPieces : List Node3 → List String
  | [] => []
  | n :: r => node3HtmlPieces n ++ nodes3HtmlPieces r

/-- Modelled from the spec: the HTML pieces of a whole document. The
tree is wrapped once per render in the document scaffolding (document,
head, hidden preview-text metadata, body, container). -/
def docHtmlPieces (d : EmailDoc) : List String :=
  ["<!DOCTYPE html><html><head></head>",
   "<div style=\"display:none;overflow:hidden\">", d.previewText, "</div>",
   "<body style=\"", d.bodyStyle, "\">",
   "<div style=\"", d.containerStyle, "\">"]
  ++ nodes3HtmlPieces d.sections
  ++ ["</div></body></html>"]

/-- Modelled from the spec: the HTML output of a document. -/
def htmlOfDoc (d : EmailDoc) : String :=
  concatAll (docHtmlPieces d)

/-- Modelled from the spec: plain-text pieces of a leaf. Style data and
dividers are discarded; text blocks contribute their visible content; a
hyperlink button or link contributes its label and its href target (so
that the URL stays reachable in plain-text clients). -/
def leafTextPieces : Leaf → List String
  | .textBlock _ c => [c]
  | .rawText c => [c]
  | .button _ href label => [label, href]
  | .linkText _ href label => [label, href]
  | .hr _ => []

/-- Text pieces of a list of leaves. -/
def leavesTextPieces : List Leaf → List String
  | [] => []
  | l :: r => leafTextPieces l ++ leavesTextPieces r

/-- Text pieces of a depth-1 node (containers collapse to nothing). -/
def node1TextPieces : Node1 → List String
  | .leaf l => leafTextPieces l
  | .sect _ cs => leavesTextPieces cs

/-- Text pieces of a list of depth-1 nodes. -/
def nodes1TextPieces : List Node1 → List String
  | [] => []
  | n :: r => node1TextPieces n ++ nodes1TextPieces r

/-- Text pieces of a depth-2 node. -/
def node2TextPieces : Node2 → List String
  | .up n => node1TextPieces n
  | .sect _ cs => nodes1TextPieces cs

/-- Text pieces of a list of depth-2 nodes. -/
def nodes2TextPieces : List Node2 → List String
  | [] => []
  | n :: r => node2TextPieces n ++ nodes2TextPieces r

/-- Text pieces of a top-level node. -/
def node3TextPieces : Node3 → List String
  | .up n => node2TextPieces n
  | .sect _ cs => nodes2TextPieces cs

/-- Text pieces of a list of top-level nodes. -/
def nodes3TextPieces : List Node3 → List String
  | [] => []
  | n :: r => node3TextPieces n ++ nodes3TextPieces r

/-- Modelled from the spec: the plain-text pieces of a document. The
hidden preview metadata is not part of the visible text projection and
is skipped by the plain-text renderer. -/
def docTextPieces (d : EmailDoc) : List String :=
  nodes3TextPieces d.sections

/-- Modelled from the spec: the plain-text output of a document, the
visible pieces separated by line breaks. -/
def textOfDoc (d : EmailDoc) : String :=
  concatAll (sepLines (docTextPieces d))

/-!
Templates. Each builder is translated from the corresponding React
component: the destructuring defaults, the node structure in document
order, and every fallible JS step (interpolation, member access,
`toLowerCase`, `articles.map`). Style objects are translated to inert
inline-CSS strings with the source values.
-/

/-- Wraps a leaf as a depth-2 node. -/
def leaf2 (l : Leaf) : Node2 := .up (.leaf l)

/-- Wraps a leaf as a top-level node. -/
def leaf3 (l : Leaf) : Node3 := .up (.up (.leaf l))

/-- Style `main` shared by the three templates. -/
def styleMain : String :=
  "background-color:#f6f9fc;font-family:-apple-system,BlinkMacSystemFont,Segoe UI,Roboto,Helvetica Neue,Ubuntu,sans-serif"

/-- Style `container` shared by the three templates. -/
def styleContainer : String :=
  "background-color:#ffffff;margin:0 auto;padding:20px 0 48px;margin-bottom:64px;max-width:600px"

/-- Style `content` shared by the three templates. -/
def styleContent : String := "padding:0 24px"

/-- Style `heading` of welcome and password-reset. -/
def styleHeading : String :=
  "font-size:24px;font-weight:bold;color:#333333;margin:40px 0 20px;text-align:center"

/-- Style `text` shared by the three templates. -/
def styleText : String := "font-size:16px;line-height:24px;color:#555555;margin:16px 0"

/-- Style `buttonContainer` of welcome and password-reset. -/
def styleButtonContainer : String := "text-align:center;margin:32px 0"

/-- Style `hr` shared by the three templates. -/
def styleHr : String := "border-color:#e6ebf1;margin:32px 0"

/-- Style `footer` shared by the three templates. -/
def styleFooter : String := "padding:24px;background-color:#f8f9fa;text-align:center"

/-- Style `footerText` shared by the three templates. -/
def styleFooterText : String := "font-size:12px;color:#8898aa;margin:4px 0"

/-- Welcome style `header`. -/
def welcomeHeaderStyle : String := "padding:32px 24px;background-color:#007bff;text-align:center"

/-- Welcome and newsletter style `logo` (the newsletter variant differs
only in its bottom margin). -/
def welcomeLogoStyle : String := "font-size:28px;font-weight:bold;color:#ffffff;margin:0"

/-- Welcome style `button`. -/
def welcomeButtonStyle : String :=
  "background-color:#007bff;border-radius:6px;color:#ffffff;font-size:16px;font-weight:bold;text-decoration:none;text-align:center;display:inline-block;padding:14px 28px;border:none"

/-- The welcome document for already-rendered parameter values `cn`
(companyName), `un` (username) and `lu` (loginUrl). -/
def welcomeDoc (cn un lu : String) : EmailDoc :=
    { previewText := "Welcome to " ++ cn ++ " - Get started with your new account"
      bodyStyle := styleMain
      containerStyle := styleContainer
      sections :=
        [.sect welcomeHeaderStyle [leaf2 (.textBlock welcomeLogoStyle cn)],
         .sect styleContent
           [leaf2 (.textBlock styleHeading ("Welcome, " ++ un ++ "!")),
            leaf2 (.textBlock styleText ("We\x27re thrilled to have you join the " ++ cn ++ " community. Your account has been successfully created, and you\x27re ready to get started.")),
            leaf2 (.textBlock styleText "Click the button below to access your dashboard and begin exploring all the features we have to offer:"),
            .sect styleButtonContainer [.leaf (.button welcomeButtonStyle lu "Get Started")],
            leaf2 (.hr styleHr),
            leaf2 (.textBlock styleText "If you have any questions or need assistance, our support team is here to help. Feel free to reply to this email or contact us through our help center.")],
         .sect styleFooter
           [leaf2 (.textBlock styleFooterText ("© 2024 " ++ cn ++ ". All rights reserved.")),
            leaf2 (.textBlock styleFooterText ("This email was sent to you because you created an account with " ++ cn ++ "."))]] }

/-- The welcome template (`src/emails/welcome.tsx`), built for a given
Data Bag: the three destructured parameters with their declared defaults
are merged inline and substituted. -/
def buildWelcome (data : Value) : Except String EmailDoc := do
  let _ ← guardDestructure data
  let cn ← renderChild (destructureDefault data "companyName" (.vStr "Unipack"))
  let un ← renderChild (destructureDefault data "username" (.vStr "User"))
  let lu ← hrefOfValue (destructureDefault data "loginUrl" (.vStr "#"))
  pure (welcomeDoc cn un lu)

/-- Password-reset style `header`. -/
def prHeaderStyle : String := "padding:32px 24px;background-color:#dc3545;text-align:center"

/-- Password-reset style `button`. -/
def prButtonStyle : String :=
  "background-color:#dc3545;border-radius:6px;color:#ffffff;font-size:16px;font-weight:bold;text-decoration:none;text-align:center;display:inline-block;padding:14px 28px;border:none"

/-- Password-reset style `warningSection`. -/
def prWarningSectionStyle : String :=
  "background-color:#fff3cd;border:1px solid #ffeeba;border-radius:4px;padding:16px;margin:24px 0"

/-- Password-reset style `warningTitle`. -/
def prWarningTitleStyle : String := "font-size:16px;font-weight:bold;color:#856404;margin:0 0 12px"

/-- Password-reset style `warningText`. -/
def prWarningTextStyle : String := "font-size:14px;line-height:20px;color:#856404;margin:8px 0"

/-- Password-reset style `urlText`. -/
def prUrlTextStyle : String :=
  "font-size:14px;color:#007bff;word-break:break-all;margin:12px 0;padding:12px;background-color:#f8f9fa;border:1px solid #dee2e6;border-radius:4px"

/-- The password-reset document for already-rendered parameter values:
`cn` (companyName), `un` (username), `ru` (resetUrl as button target),
`et` (expiryTime), `ruText` (resetUrl as printed text) and `lowCn`
(lower-cased companyName). -/
def passwordResetDoc (cn un ru et ruText lowCn : String) : EmailDoc :=
    { previewText := "Reset your " ++ cn ++ " password"
      bodyStyle := styleMain
      containerStyle := styleContainer
      sections :=
        [.sect prHeaderStyle [leaf2 (.textBlock welcomeLogoStyle cn)],
         .sect styleContent
           [leaf2 (.textBlock styleHeading "Password Reset Request"),
            leaf2 (.textBlock styleText ("Hi " ++ un ++ ",")),
            leaf2 (.textBlock styleText ("We received a request to reset the password for your " ++ cn ++ " account. If you made this request, click the button below to create a new password:")),
            .sect styleButtonContainer [.leaf (.button prButtonStyle ru "Reset Password")],
            leaf2 (.textBlock styleText ("This password reset link will expire in " ++ et ++ ". If you need to request another reset link, you can do so from our login page.")),
            leaf2 (.hr styleHr),
            .sect prWarningSectionStyle
              [.leaf (.textBlock prWarningTitleStyle "⚠️ Security Notice"),
               .leaf (.textBlock prWarningTextStyle "If you didn\x27t request this password reset, please ignore this email. Your password will remain unchanged, and your account is secure."),
               .leaf (.textBlock prWarningTextStyle "For your security, never share this reset link with anyone. Our support team will never ask you for your password or login credentials.")],
            leaf2 (.hr styleHr),
            leaf2 (.textBlock styleText "If you\x27re having trouble with the button above, copy and paste the following URL into your browser:"),
            leaf2 (.textBlock prUrlTextStyle ruText)],
         .sect styleFooter
           [leaf2 (.textBlock styleFooterText ("Need help? Contact our support team at support@" ++ lowCn ++ ".com")),
            leaf2 (.textBlock styleFooterText ("© 2024 " ++ cn ++ ". All rights reserved."))]] }

/-- The password-reset template (`src/unnamed/part_000`), built for a
given Data Bag: the four destructured parameters with their declared
defaults are merged inline. The footer interpolates
`support@` with `companyName.toLowerCase()`, the only `toLowerCase`
call. -/
def buildPasswordReset (data : Value) : Except String EmailDoc := do
  let _ ← guardDestructure data
  let cn ← renderChild (destructureDefault data "companyName" (.vStr "Unipack"))
  let un ← renderChild (destructureDefault data "username" (.vStr "User"))
  let ru ← hrefOfValue (destructureDefault data "resetUrl" (.vStr "#"))
  let et ← renderChild (destructureDefault data "expiryTime" (.vStr "24 hours"))
  let ruText ← renderChild (destructureDefault data "resetUrl" (.vStr "#"))
  let lowCn ← jsToLowerCase (destructureDefault data "companyName" (.vStr "Unipack"))
  pure (passwordResetDoc cn un ru et ruText lowCn)

/-- Newsletter style `logo`. -/
def nlLogoStyle : String := "font-size:28px;font-weight:bold;color:#ffffff;margin:0 0 8px 0"

/-- Newsletter style `headerSubtitle`. -/
def nlHeaderSubtitleStyle : String := "font-size:16px;color:#ffffff;margin:0;opacity:0.9"

/-- Newsletter style `greeting`. -/
def nlGreetingStyle : String := "font-size:18px;font-weight:600;color:#333333;margin:32px 0 16px"

/-- Newsletter style `sectionHeading`. -/
def nlSectionHeadingStyle : String :=
  "font-size:20px;font-weight:bold;color:#333333;margin:32px 0 20px;border-bottom:2px solid #007bff;padding-bottom:8px"

/-- Newsletter style `articleSection`. -/
def nlArticleSectionStyle : String := "margin:24px 0"

/-- Newsletter style `articleTitle`. -/
def nlArticleTitleStyle : String := "font-size:18px;font-weight:bold;margin:0 0 12px"

/-- Newsletter style `articleLink`. -/
def nlArticleLinkStyle : String := "color:#007bff;text-decoration:none"

/-- Newsletter style `articleExcerpt`. -/
def nlArticleExcerptStyle : String := "font-size:14px;line-height:20px;color:#666666;margin:0 0 8px"

/-- Newsletter style `readTime`. -/
def nlReadTimeStyle : String := "font-size:12px;color:#999999;margin:0 0 16px"

/-- Newsletter style `articleButtonContainer`. -/
def nlArticleButtonContainerStyle : String := "margin:16px 0"

/-- Newsletter style `articleButton`. -/
def nlArticleButtonStyle : String :=
  "background-color:transparent;border:1px solid #007bff;border-radius:4px;color:#007bff;font-size:14px;font-weight:500;text-decoration:none;text-align:center;display:inline-block;padding:8px 16px"

/-- Newsletter style `articleHr`. -/
def nlArticleHrStyle : String := "border-color:#e6ebf1;margin:24px 0"

/-- Newsletter style `ctaText`. -/
def nlCtaTextStyle : String :=
  "font-size:16px;line-height:24px;color:#333333;text-align:center;margin:24px 0 16px"

/-- Newsletter style `socialSection`. -/
def nlSocialSectionStyle : String := "text-align:center;margin:20px 0"

/-- Newsletter style `socialButton`. -/
def nlSocialButtonStyle : String :=
  "background-color:#007bff;border-radius:4px;color:#ffffff;font-size:14px;font-weight:500;text-decoration:none;text-align:center;display:inline-block;padding:8px 16px;margin:0 8px;border:none"

/-- Newsletter style `unsubscribeLink`. -/
def nlUnsubscribeLinkStyle : String := "color:#8898aa;text-decoration:underline"

/-- The declared default value of the newsletter `articles` parameter. -/
def defaultNewsletterArticles : Value :=
  .vArr [.vObj
    [("title", .vStr "Sample Article Title"),
     ("excerpt", .vStr "This is a sample article excerpt that gives readers a preview of the content..."),
     ("url", .vStr "#"),
     ("readTime", .vStr "5 min read")]]

/-- The href value of `article.url`: an absent field drops the
attribute. -/
def urlHrefOf : Option Value → Except String String
  | none => .ok ""
  | some v => hrefOfValue v

/-- The read-time conditional `article.readTime && <Text .../>`: absent
renders nothing; a truthy value renders the styled text node; a falsy
value renders as the value itself (a bare text child). -/
def readTimeNodes : Option Value → Except String (List Node1)
  | none => .ok []
  | some v =>
      if truthy v then do
        let s ← renderChild v
        pure [Node1.leaf (.textBlock nlReadTimeStyle s)]
      else do
        let s ← renderChild v
        pure [Node1.leaf (.rawText s)]

/-- One article block of the newsletter, from the body of
`articles.map((article, index) => ...)`: the linked title, the excerpt,
the read-time text node rendered only when `article.readTime` is truthy
(a falsy value renders as the value itself, i.e. as empty text for the
falsy values expressible in JSON strings), the Read More button, and a
trailing divider only when `index < articles.length - 1`. -/
def newsletterArticleBlock (len idx : Nat) (article : Value) : Except String Node2 := do
  let urlOpt ← getMember article "url"
  let urlHref ← urlHrefOf urlOpt
  let titleOpt ← getMember article "title"
  let title ← renderOpt titleOpt
  let excerptOpt ← getMember article "excerpt"
  let excerpt ← renderOpt excerptOpt
  let rtOpt ← getMember article "readTime"
  let rtNodes ← readTimeNodes rtOpt
  pure (.sect nlArticleSectionStyle
    ([.sect nlArticleTitleStyle [.linkText nlArticleLinkStyle urlHref title],
      .leaf (.textBlock nlArticleExcerptStyle excerpt)]
     ++ rtNodes
     ++ [.sect nlArticleButtonContainerStyle [.button nlArticleButtonStyle urlHref "Read More"]]
     ++ (if idx < len - 1 then [Node1.leaf (.hr nlArticleHrStyle)] else [])))

/-- The expansion of `articles.map((article, index) => ...)`, one block
per array element in order, `idx` tracking the element index. -/
def newsletterArticlesBlocks (len : Nat) : Nat → List Value → Except String (List Node2)
  | _, [] => .ok []
  | idx, a :: rest => do
      let b ← newsletterArticleBlock len idx a
      let bs ← newsletterArticlesBlocks len (idx + 1) rest
      pure (b :: bs)

/-- The array elements of the merged `articles` value, or the TypeError
that `articles.map` throws on a non-array value. -/
def articlesElems (articles : Value) : Except String (List Value) :=
  match articles with
  | .vArr elems => .ok elems
  | _ => .error "TypeError: articles.map is not a function"

/-- The newsletter document for already-rendered parameter values:
`ttl` (title), `cn` (companyName), the expanded article blocks, and
`unsub` (unsubscribeUrl). -/
def newsletterDoc (ttl cn : String) (blocks : List Node2) (unsub : String) : EmailDoc :=
    { previewText := ttl ++ " - Latest updates from " ++ cn
      bodyStyle := styleMain
      containerStyle := styleContainer
      sections :=
        [.sect welcomeHeaderStyle
           [leaf2 (.textBlock nlLogoStyle cn), leaf2 (.textBlock nlHeaderSubtitleStyle ttl)],
         .sect styleContent
           [leaf2 (.textBlock nlGreetingStyle "Hello there! 👋"),
            leaf2 (.textBlock styleText ("Here\x27s what\x27s been happening at " ++ cn ++ " this week. We\x27ve curated the most interesting updates, insights, and stories just for you."))],
         .sect styleContent
           ([leaf2 (.textBlock nlSectionHeadingStyle "Latest Articles")] ++ blocks),
         leaf3 (.hr styleHr),
         .sect styleContent
           [leaf2 (.textBlock nlCtaTextStyle "Want to stay connected? Follow us on social media for daily updates and behind-the-scenes content."),
            .sect nlSocialSectionStyle
              [.leaf (.button nlSocialButtonStyle "#" "Twitter"),
               .leaf (.button nlSocialButtonStyle "#" "LinkedIn"),
               .leaf (.button nlSocialButtonStyle "#" "Facebook")]],
         .sect styleFooter
           [leaf2 (.textBlock styleFooterText ("© 2024 " ++ cn ++ ". All rights reserved.")),
            leaf2 (.textBlock styleFooterText "You\x27re receiving this because you subscribed to our newsletter."),
            .sect styleFooterText
              [.leaf (.linkText nlUnsubscribeLinkStyle unsub "Unsubscribe"),
               .leaf (.rawText " | "),
               .leaf (.linkText nlUnsubscribeLinkStyle "#" "Update preferences")]]] }

/-- The newsletter template (`src/unnamed/part_001`), built for a given
Data Bag: the four destructured parameters with their declared defaults
are merged inline; `articles.map` throws a TypeError when the merged
`articles` value is not an array. -/
def buildNewsletter (data : Value) : Except String EmailDoc := do
  let _ ← guardDestructure data
  let ttl ← renderChild (destructureDefault data "title" (.vStr "Weekly Newsletter"))
  let cn ← renderChild (destructureDefault data "companyName" (.vStr "Unipack"))
  let articleElems ← articlesElems (destructureDefault data "articles" defaultNewsletterArticles)
  let blocks ← newsletterArticlesBlocks articleElems.length 0 articleElems
  let unsub ← hrefOfValue (destructureDefault data "unsubscribeUrl" (.vStr "#"))
  pure (newsletterDoc ttl cn blocks unsub)

/-- The result of one `renderEmailTemplate` call. -/
structure RenderResult where
  html : Option String
  text : Option String
deriving DecidableEq

/-- The template registry, the object literal `const templates` binding
the names welcome, newsletter and password-reset to their components. -/
def templateBuilders (n : String) : Option (Value → Except String EmailDoc) :=
  if n == "welcome" then some buildWelcome
  else if n == "newsletter" then some buildNewsletter
  else if n == "password-reset" then some buildPasswordReset
  else none

/-- The string-keyed properties every object literal inherits from
`Object.prototype`. The registry is a plain object literal, so
`templates[name]` is truthy for each of these names even though no such
template is registered. -/
def objectPrototypeKeys : List String :=
  ["constructor", "hasOwnProperty", "isPrototypeOf", "propertyIsEnumerable",
   "toLocaleString", "toString", "valueOf", "__defineGetter__",
   "__defineSetter__", "__lookupGetter__", "__lookupSetter__", "__proto__"]

/-- Truthiness of the JS property read `templates[name]`: true for the
three registered templates and for every property inherited from
`Object.prototype`. -/
def templatesLookupTruthy (n : String) : Bool :=
  (templateBuilders n).isSome || objectPrototypeKeys.contains n

/-- The renderer entry point `renderEmailTemplate(templateName, data,
format)` of `src/emails/welcome.tsx`: builds the requested template and
serializes it to HTML and/or text according to `format`; for
`format = "both"` the component is invoked once per output, on the same
data. When `name` resolves to an `Object.prototype` member the source
would call that inherited function as a component and hand the result to
the external renderer; that path leaves this repository and is marked
unmodelled (no theorem depends on it). The serialization work shared by
every template is `renderWithBuilder`. -/
def renderWithBuilder (build : Value → Except String EmailDoc) (data : Value) (format : Value) :
    Except String RenderResult := do
  let h ← if isStrVal format "html" || isStrVal format "both" then do
      let doc ← build data
      pure (some (htmlOfDoc doc))
    else pure none
  let t ← if isStrVal format "text" || isStrVal format "both" then do
      let doc ← build data
      pure (some (textOfDoc doc))
    else pure none
  pure ⟨h, t⟩

/-- Dispatch of `renderEmailTemplate` on the resolved template. -/
def renderEmailTemplate (name : String) (data : Value) (format : Value) : Except String RenderResult :=
  match templateBuilders name with
  | some build => renderWithBuilder build data format
  | none =>
      if objectPrototypeKeys.contains name then
        .error "unmodelled: a property inherited from Object.prototype was used as a template"
      else
        .error ("Template \x27" ++ name ++ "\x27 not found")

/-!
HTTP surface. The Bun `fetch` handler of `src/emails/welcome.tsx` is
translated here (the Node variant in `src/server/node-server.ts`
implements the same dispatch; it differs only in that its render branch
catches every error as the 400 Invalid-JSON envelope where the Bun
handler reaches the outer 500 catch — no claim depends on a path where
they differ). `JSON.parse` and `JSON.stringify` are runtime built-ins:
a request body is therefore modelled as either `malformed` (the parse
throws) or an already-parsed `Value`, and response payloads are kept as
structured `Value`s rather than serialized text. The health timestamp
`new Date().toISOString()` is the only clock read; it enters the
handler as the explicit `now` argument. -/

/-- A request body: either text that `JSON.parse` rejects, or the parsed
JSON value. -/
inductive ReqBody where
  | malformed
  | json (v : Value)

/-- An incoming HTTP request, reduced to the fields the handler reads. -/
structure HttpRequest where
  method : String
  path : String
  body : ReqBody

/-- An outgoing response: a JSON envelope, an HTML/plain page, or the
empty CORS preflight reply. All responses carry the permissive CORS
headers, which are constant and therefore not modelled per-response. -/
inductive HttpResponse where
  | json (status : Nat) (payload : Value)
  | page (status : Nat) (contentType : String) (content : String)
  | noContent

/-- The registered template names in registry insertion order,
`Object.keys(templates)`. -/
def templateNames : List String := ["welcome", "newsletter", "password-reset"]

/-- String prefix test, `startsWith`. -/
def startsWithStr (s pre : String) : Bool := pre.data.isPrefixOf s.data

/-- The characters before the next occurrence of `sep`. -/
def takeUntilSep (sep : List Char) : List Char → List Char
  | [] => []
  | c :: cs => if sep.isPrefixOf (c :: cs) then [] else c :: takeUntilSep sep cs

/-- Models `url.pathname.split(\x27/render/\x27)[1]` for a pathname that
the dispatcher has already checked to start with `/render/`: the
characters after that prefix, up to any further occurrence of the
separator. -/
def renderPathName (path : String) : String :=
  String.mk (takeUntilSep "/render/".data (path.data.drop 8))

/-- Models `url.pathname.split(\x27/preview/\x27)[1]` under the
`/preview/` guard. -/
def previewPathName (path : String) : String :=
  String.mk (takeUntilSep "/preview/".data (path.data.drop 9))

/-- The source function `getTemplateDescription`. -/
def getTemplateDescription (n : String) : String :=
  if n == "welcome" then "Welcome email for new user registration"
  else if n == "newsletter" then "Newsletter email with articles and updates"
  else if n == "password-reset" then "Password reset email with secure reset link"
  else "Email template"

/-- The source function `getSampleData`. -/
def getSampleData (n : String) : Value :=
  if n == "welcome" then
    .vObj [("username", .vStr "John Doe"),
           ("loginUrl", .vStr "https://app.unipack.com/login"),
           ("companyName", .vStr "Unipack")]
  else if n == "newsletter" then
    .vObj [("title", .vStr "Weekly Newsletter"),
           ("companyName", .vStr "Unipack"),
           ("articles", .vArr
             [.vObj [("title", .vStr "Introducing New Features"),
                     ("excerpt", .vStr "We are excited to announce several new features that will enhance your experience..."),
                     ("url", .vStr "https://blog.unipack.com/new-features"),
                     ("readTime", .vStr "5 min read")],
              .vObj [("title", .vStr "Product Updates"),
                     ("excerpt", .vStr "This month we have shipped improvements to performance, security, and user interface..."),
                     ("url", .vStr "https://blog.unipack.com/product-updates"),
                     ("readTime", .vStr "3 min read")]]),
           ("unsubscribeUrl", .vStr "https://app.unipack.com/unsubscribe")]
  else if n == "password-reset" then
    .vObj [("username", .vStr "John Doe"),
           ("resetUrl", .vStr "https://app.unipack.com/reset-password?token=abc123"),
           ("companyName", .vStr "Unipack"),
           ("expiryTime", .vStr "24 hours")]
  else .vObj []

/-- The `/health` payload; `now` is the `toISOString` value of the
current time. -/
def healthPayload (now : String) : Value :=
  .vObj [("status", .vStr "healthy"), ("timestamp", .vStr now), ("version", .vStr "1.0.0")]

/-- The `/templates` payload. -/
def templatesListPayload : Value :=
  .vObj [("success", .vBool true),
         ("templates", .vArr (templateNames.map fun n =>
           .vObj [("name", .vStr n),
                  ("description", .vStr (getTemplateDescription n)),
                  ("endpoint", .vStr ("/render/" ++ n))]))]

/-- The 404 envelope for an unknown template name on `/render/`, whose
message lists the valid names. -/
def templateNotFoundPayload (name : String) : Value :=
  .vObj [("success", .vBool false),
         ("error", .vStr ("Template \x27" ++ name ++ "\x27 not found. Available templates: welcome, newsletter, password-reset"))]

/-- The 400 envelope for a body that `JSON.parse` rejects. -/
def invalidJsonPayload : Value :=
  .vObj [("success", .vBool false), ("error", .vStr "Invalid JSON body")]

/-- The fallback 404 envelope for unmatched routes. -/
def routeNotFoundPayload : Value :=
  .vObj [("success", .vBool false),
         ("error", .vStr "Route not found"),
         ("availableRoutes", .vArr
           [.vStr "/health", .vStr "/templates",
            .vStr "/render/\x7btemplateName\x7d", .vStr "/preview/\x7btemplateName\x7d"])]

/-- The 500 envelope of the outer catch, carrying the thrown message. -/
def serverErrorPayload (msg : String) : Value :=
  .vObj [("success", .vBool false), ("error", .vStr msg)]

/-- The success envelope of a render, spreading the rendered outputs. -/
def successPayload (rr : RenderResult) : Value :=
  .vObj ([("success", .vBool true)]
    ++ (match rr.html with | some s => [("html", .vStr s)] | none => [])
    ++ (match rr.text with | some s => [("text", .vStr s)] | none => []))

/-- The message of the plain-text 404 on `/preview/`. -/
def previewNotFoundMsg (name : String) : String :=
  "Template \x27" ++ name ++ "\x27 not found. Available templates: welcome, newsletter, password-reset"

/-- The list items interpolated into the documentation page. -/
def docsTemplateListItems : String :=
  concatAll (templateNames.map fun n =>
    "<li><strong>" ++ n ++ "</strong> - " ++ getTemplateDescription n
      ++ " <br><a href=\"/preview/" ++ n ++ "\" target=\"_blank\">Preview</a></li>")

/-- The `/` documentation page of the Bun handler (template-literal
whitespace normalized; inert content). -/
def apiDocsHtml : String :=
  "<html><head><title>Unipack Emails API</title><style>"
  ++ "body \x7b font-family: -apple-system,BlinkMacSystemFont,\"Segoe UI\",Roboto,sans-serif; max-width: 800px; margin: 0 auto; padding: 20px; \x7d "
  ++ "h1 \x7b color: #007bff; \x7d h2 \x7b color: #333; margin-top: 2em; \x7d "
  ++ "pre \x7b background: #f8f9fa; padding: 15px; border-radius: 4px; overflow-x: auto; \x7d "
  ++ ".endpoint \x7b background: #e3f2fd; padding: 10px; border-radius: 4px; margin: 10px 0; \x7d "
  ++ ".method \x7b font-weight: bold; color: #007bff; \x7d "
  ++ "</style></head><body><h1>🚀 Unipack Emails API</h1>"
  ++ "<p>Professional email template rendering service built with Bun and React Email.</p>"
  ++ "<h2>Available Endpoints</h2>"
  ++ "<div class=\"endpoint\"><span class=\"method\">GET</span> <code>/health</code> - Health check</div>"
  ++ "<div class=\"endpoint\"><span class=\"method\">GET</span> <code>/templates</code> - List available templates</div>"
  ++ "<div class=\"endpoint\"><span class=\"method\">POST</span> <code>/render/\x7btemplateName\x7d</code> - Render email template</div>"
  ++ "<div class=\"endpoint\"><span class=\"method\">GET</span> <code>/preview/\x7btemplateName\x7d</code> - Preview email template in browser</div>"
  ++ "<h2>Available Templates</h2><ul>" ++ docsTemplateListItems ++ "</ul>"
  ++ "<h2>Example Usage</h2><pre>POST /render/welcome" ++ "\n" ++ "Content-Type: application/json"
  ++ "\n\n" ++ "\x7b \"data\": \x7b \"username\": \"John Doe\", \"loginUrl\": \"https://app.unipack.com/login\", \"companyName\": \"Unipack\" \x7d, \"format\": \"html\" \x7d</pre>"
  ++ "<h2>Response Format</h2><pre>\x7b \"success\": true, \"html\": \"&lt;html&gt;...&lt;/html&gt;\", \"text\": \"plain text version (if requested)\" \x7d</pre>"
  ++ "</body></html>"

/-- The render branch after the registry guard and successful JSON
parse: `const format = body.format || \x27html\x27` then
then `renderEmailTemplate` on `body.data` with a falsy data value
replaced by the empty object, and the success envelope; every thrown
error reaches the outer 500 catch. -/
def renderRespond (name : String) (bodyVal : Value) : HttpResponse :=
  match (do
    let fmtOpt ← getMember bodyVal "format"
    let fmt := match fmtOpt with
      | some v => if truthy v then v else Value.vStr "html"
      | none => Value.vStr "html"
    let dataOpt ← getMember bodyVal "data"
    let dataVal := match dataOpt with
      | some v => if truthy v then v else Value.vObj []
      | none => Value.vObj []
    renderEmailTemplate name dataVal fmt : Except String RenderResult) with
  | .ok rr => .json 200 (successPayload rr)
  | .error e => .json 500 (serverErrorPayload e)

/-- The Bun `fetch` dispatcher of `src/emails/welcome.tsx`, branch for
branch in source order: CORS preflight, `/health`, `/templates`,
`POST /render/`, `GET /preview/`, the documentation page, and the
fallback 404. -/
def fetchHandler (now : String) (req : HttpRequest) : HttpResponse :=
  if req.method == "OPTIONS" then .noContent
  else if req.path == "/health" && req.method == "GET" then
    .json 200 (healthPayload now)
  else if req.path == "/templates" && req.method == "GET" then
    .json 200 templatesListPayload
  else if startsWithStr req.path "/render/" && req.method == "POST" then
    let name := renderPathName req.path
    if templatesLookupTruthy name then
      match req.body with
      | .malformed => .json 400 invalidJsonPayload
      | .json bodyVal => renderRespond name bodyVal
    else .json 404 (templateNotFoundPayload name)
  else if startsWithStr req.path "/preview/" && req.method == "GET" then
    let name := previewPathName req.path
    if templatesLookupTruthy name then
      match renderEmailTemplate name (getSampleData name) (.vStr "html") with
      | .ok rr => .page 200 "text/html" (rr.html.getD "")
      | .error e => .json 500 (serverErrorPayload e)
    else .page 404 "" (previewNotFoundMsg name)
  else if req.path == "/" && req.method == "GET" then
    .page 200 "text/html" apiDocsHtml
  else .json 404 routeNotFoundPayload

/-- The HTTP status of a response (a bodyless Bun `Response` defaults to
status 200). -/
def statusOf : HttpResponse → Nat
  | .json st _ => st
  | .page st _ _ => st
  | .noContent => 200

/-- A top-level field of a JSON response payload. -/
def jsonField (r : HttpResponse) (k : String) : Option Value :=
  match r with
  | .json _ p => lookupField p k
  | _ => none

/-- The `success` flag of a JSON response payload. -/
def successFlag (r : HttpResponse) : Option Bool :=
  match jsonField r "success" with
  | some (.vBool b) => some b
  | _ => none

/-- The `error` message of a JSON response payload. -/
def errorMessage (r : HttpResponse) : Option String :=
  match jsonField r "error" with
  | some (.vStr s) => some s
  | _ => none

/-!
Word and occurrence machinery. Claims about the rendered output strings
(word subset, substring occurrence counts) are stated over the full
output and proved through the piece lists, so that every concrete
computation stays shallow.
-/

/-- Splits a character list into maximal runs of non-whitespace
characters; `acc` holds the current run reversed. -/
def wordsAux : List Char → List Char → List (List Char)
  | acc, [] => if acc.isEmpty then [] else [acc.reverse]
  | acc, c :: cs =>
    if c.isWhitespace then
      (if acc.isEmpty then wordsAux [] cs else acc.reverse :: wordsAux [] cs)
    else wordsAux (c :: acc) cs

/-- The non-whitespace words of a string, in order. -/
def wordsOf (s : String) : List (List Char) := wordsAux [] s.data

/-- The number of positions at which `pat` occurs in a character list
(overlapping occurrences all counted). -/
def countOcc (pat : List Char) : List Char → Nat
  | [] => 0
  | c :: cs => (if pat.isPrefixOf (c :: cs) then 1 else 0) + countOcc pat cs

/-- The number of positions inside `a` at which `pat` occurs in
`a ++ b`. -/
def countStarts (pat : List Char) : List Char → List Char → Nat
  | [], _ => 0
  | c :: a, b => (if pat.isPrefixOf (c :: (a ++ b)) then 1 else 0) + countStarts pat a b

/-- Concatenation of character-list pieces. -/
def joinAll : List (List Char) → List Char
  | [] => []
  | a :: r => a ++ joinAll r

/-- Occurrence count of `pat` in the concatenation of the pieces,
computed piece by piece: occurrences starting inside a piece need at
most the next `pat.length - 1` characters of the remaining pieces. -/
def countOccPieces (pat : List Char) : List (List Char) → Nat
  | [] => 0
  | a :: r => countStarts pat a ((joinAll r).take (pat.length - 1)) + countOccPieces pat r

/-- Occurrence count of a pattern string in the HTML output of a
document. -/
def countInHtml (pat : String) (d : EmailDoc) : Nat :=
  countOcc pat.data (htmlOfDoc d).data

/-- Occurrence count of a pattern string in the plain-text output of a
document. -/
def countInText (pat : String) (d : EmailDoc) : Nat :=
  countOcc pat.data (textOfDoc d).data

/-!
Helper definitions for the claim statements: structured views of the
newsletter article expansion and concrete inputs reused across
theorems.
-/

/-- A well-formed newsletter article record, as declared by the
`NewsletterEmailProps` interface: three string fields and an optional
read time. -/
structure Article where
  title : String
  excerpt : String
  url : String
  readTime : Option String
deriving DecidableEq

/-- The JSON encoding of an article record; an absent `readTime` omits
the key. -/
def Article.toValue (a : Article) : Value :=
  .vObj ([("title", .vStr a.title), ("excerpt", .vStr a.excerpt), ("url", .vStr a.url)]
    ++ (match a.readTime with | some rt => [("readTime", .vStr rt)] | none => []))

/-- The article block the newsletter map body produces for a well-formed
article: linked title, excerpt, the read-time text node exactly when the
field is present and non-empty (a present empty read time is falsy and
renders as itself, i.e. as an empty bare text), the Read More button,
and a trailing divider exactly when `withDivider`. -/
def expectedArticleBlock (withDivider : Bool) (a : Article) : Node2 :=
  .sect nlArticleSectionStyle
    ([.sect nlArticleTitleStyle [.linkText nlArticleLinkStyle a.url a.title],
      .leaf (.textBlock nlArticleExcerptStyle a.excerpt)]
     ++ (match a.readTime with
         | none => []
         | some rt =>
             if rt == "" then [Node1.leaf (.rawText "")]
             else [Node1.leaf (.textBlock nlReadTimeStyle rt)])
     ++ [.sect nlArticleButtonContainerStyle [.button nlArticleButtonStyle a.url "Read More"]]
     ++ (if withDivider then [Node1.leaf (.hr nlArticleHrStyle)] else []))

/-- The expected article blocks for a list of articles starting at index
`idx` out of `len`. -/
def expectedBlocks (len : Nat) : Nat → List Article → List Node2
  | _, [] => []
  | idx, a :: r => expectedArticleBlock (decide (idx < len - 1)) a :: expectedBlocks len (idx + 1) r

/-- The title label of an article block (the label of the link in its
first child). -/
def articleBlockTitle : Node2 → Option String
  | .sect _ (.sect _ (.linkText _ _ label :: _) :: _) => some label
  | _ => none

/-- Whether an article block carries a trailing horizontal-rule
divider. -/
def articleBlockEndsWithHr : Node2 → Bool
  | .sect _ cs =>
      match cs.getLast? with
      | some (.leaf (.hr _)) => true
      | _ => false
  | _ => false

/-- Whether an article block contains a read-time text node (a text
block styled with the `readTime` style). -/
def articleBlockHasReadTime : Node2 → Bool
  | .sect _ cs => cs.any fun n =>
      match n with
      | .leaf (.textBlock st _) => st == nlReadTimeStyle
      | _ => false
  | _ => false

/-- The content of the heading text node of a welcome document (second
section, first child). -/
def welcomeHeadingContent (d : EmailDoc) : Option String :=
  match d.sections with
  | _ :: .sect _ (.up (.leaf (.textBlock _ c)) :: _) :: _ => some c
  | _ => none

/-- The empty document, used as a fallback when projecting out of
`Except` in closed statements. -/
def emptyDoc : EmailDoc := ⟨"", "", "", []⟩

/-- Projection of a render result out of `Except` for closed
statements. -/
def docOf (r : Except String EmailDoc) : EmailDoc :=
  match r with
  | .ok d => d
  | .error _ => emptyDoc

/-- The Data Bag of the password-reset example scenario. -/
def anaData : Value :=
  .vObj [("username", .vStr "Ana"),
         ("resetUrl", .vStr "https://x/y"),
         ("expiryTime", .vStr "2 hours")]

/-- The supplied value at a key, when present, is a string (the
declared type of the scalar template parameters). -/
def scalarStringAt (d : Value) (k : String) : Prop :=
  ∀ v, lookupField d k = some v → ∃ s, v = Value.vStr s

/-- A supplied article record is an object whose field values are
strings. -/
def wellTypedArticleValue (a : Value) : Prop :=
  ∃ fs, a = Value.vObj fs ∧ ∀ k v, List.lookup k fs = some v → ∃ s, v = Value.vStr s

/-- The supplied articles value, when present, is an array of
well-typed records. -/
def articlesWellTyped (d : Value) : Prop :=
  ∀ v, lookupField d "articles" = some v →
    ∃ elems, v = Value.vArr elems ∧ ∀ a ∈ elems, wellTypedArticleValue a

/-- Fallback article for positional access in statements. -/
def defaultArticle : Article := ⟨"", "", "", none⟩

/-- Fallback article block for positional access in statements. -/
def emptyBlock : Node2 := .up (.leaf (.rawText ""))

/-!
Lemmas. First the generic string-piece machinery, then the subset
relation between text pieces and HTML pieces, then the claim theorems.
-/

/-- Step equation of `wordsAux` on the empty list. -/
theorem wordsAux_nil (acc : List Char) :
    wordsAux acc [] = if acc.isEmpty then [] else [acc.reverse] := rfl

/-- Step equation of `wordsAux` on a cons. -/
theorem wordsAux_cons (acc : List Char) (c : Char) (cs : List Char) :
    wordsAux acc (c :: cs) =
      if c.isWhitespace then
        (if acc.isEmpty then wordsAux [] cs else acc.reverse :: wordsAux [] cs)
      else wordsAux (c :: acc) cs := rfl

/-- Step equation of `countOcc` on a cons. -/
theorem countOcc_cons (p : List Char) (c : Char) (cs : List Char) :
    countOcc p (c :: cs) = (if p.isPrefixOf (c :: cs) then 1 else 0) + countOcc p cs := rfl

/-- Step equation of `countStarts` on a cons. -/
theorem countStarts_cons (p : List Char) (c : Char) (a b : List Char) :
    countStarts p (c :: a) b = (if p.isPrefixOf (c :: (a ++ b)) then 1 else 0) + countStarts p a b := rfl

/-- Data of a concatenation is the concatenation of the data. -/
theorem concatAll_data (l : List String) : (concatAll l).data = joinAll (l.map String.data) := by
  induction l with
  | nil => rfl
  | cons s r ih => simp [concatAll, joinAll, String.data_append, ih]

/-- Transitivity of segment containment. -/
theorem seg_trans {a b c : List Char} (h1 : a <:+: b) (h2 : b <:+: c) : a <:+: c := by
  obtain ⟨s1, t1, rfl⟩ := h1
  obtain ⟨s2, t2, rfl⟩ := h2
  exact ⟨s2 ++ s1, t1 ++ t2, by simp⟩

/-- A member piece occurs inside the join of the pieces. -/
theorem mem_joinAll_seg {a : List Char} {L : List (List Char)} (h : a ∈ L) : a <:+: joinAll L := by
  induction L with
  | nil => cases h
  | cons b r ih =>
    rcases List.mem_cons.mp h with rfl | h
    · exact ⟨[], joinAll r, by simp [joinAll]⟩
    · exact seg_trans (ih h) ⟨b, [], by simp [joinAll]⟩

/-- A member piece occurs inside the concatenation of the pieces. -/
theorem mem_concatAll_seg {s : String} {l : List String} (h : s ∈ l) :
    s.data <:+: (concatAll l).data := by
  rw [concatAll_data]
  exact mem_joinAll_seg (List.mem_map_of_mem _ h)

/-- Every word produced by `wordsAux` occurs inside the scanned text
(prefixed by the pending accumulator). -/
theorem wordsAux_word_seg :
    ∀ (l acc w : List Char), w ∈ wordsAux acc l → w <:+: (acc.reverse ++ l) := by
  intro l
  induction l with
  | nil =>
    intro acc w h
    rw [wordsAux_nil] at h
    split at h
    · cases h
    · rcases List.mem_singleton.mp h with rfl
      exact ⟨[], [], by simp⟩
  | cons c cs ih =>
    intro acc w h
    rw [wordsAux_cons] at h
    split at h
    · split at h
      · exact seg_trans (by simpa using ih [] w h) ⟨acc.reverse ++ [c], [], by simp⟩
      · rcases List.mem_cons.mp h with rfl | h
        · exact ⟨[], c :: cs, by simp⟩
        · exact seg_trans (by simpa using ih [] w h) ⟨acc.reverse ++ [c], [], by simp⟩
    · have := ih (c :: acc) w h
      simpa [List.append_assoc] using this

/-- A trailing whitespace character does not change the word list. -/
theorem wordsAux_trailing_ws (c : Char) (hc : c.isWhitespace = true) :
    ∀ (a acc : List Char), wordsAux acc (a ++ [c]) = wordsAux acc a := by
  intro a
  induction a with
  | nil =>
    intro acc
    show wordsAux acc [c] = wordsAux acc []
    by_cases hacc : acc.isEmpty = true
    · simp [wordsAux_cons, wordsAux_nil, hc, hacc]
    · simp [wordsAux_cons, wordsAux_nil, hc, hacc]
  | cons x a' ih =>
    intro acc
    show wordsAux acc (x :: (a' ++ [c])) = wordsAux acc (x :: a')
    rw [wordsAux_cons, wordsAux_cons]
    split
    · split
      · exact ih []
      · rw [ih []]
    · exact ih (x :: acc)

/-- Splitting the scanned text at a whitespace character splits the word
list. -/
theorem wordsAux_split_ws (c : Char) (hc : c.isWhitespace = true) :
    ∀ (a b acc : List Char),
      wordsAux acc (a ++ c :: b) = wordsAux acc (a ++ [c]) ++ wordsAux [] b := by
  intro a
  induction a with
  | nil =>
    intro b acc
    show wordsAux acc (c :: b) = wordsAux acc [c] ++ wordsAux [] b
    by_cases hacc : acc.isEmpty = true
    · simp [wordsAux_cons, wordsAux_nil, hc, hacc]
    · simp [wordsAux_cons, wordsAux_nil, hc, hacc]
  | cons x a' ih =>
    intro b acc
    show wordsAux acc (x :: (a' ++ c :: b)) = wordsAux acc (x :: (a' ++ [c])) ++ _
    rw [wordsAux_cons, wordsAux_cons]
    split
    · split
      · exact ih b []
      · rw [ih b []]; rfl
    · exact ih b (x :: acc)

/-- The words of newline-separated pieces are the words of the pieces in
order. -/
theorem wordsOf_sepLines :
    ∀ ps : List String, wordsOf (concatAll (sepLines ps)) = (ps.map wordsOf).flatten := by
  intro ps
  induction ps with
  | nil => rfl
  | cons p r ih =>
    cases r with
    | nil =>
      show wordsOf (p ++ concatAll []) = _
      simp [wordsOf, concatAll, String.data_append]
    | cons q r' =>
      have hdata : (concatAll (sepLines (p :: q :: r'))).data
          = p.data ++ '\n' :: (concatAll (sepLines (q :: r'))).data := by
        show (p ++ ("\n" ++ concatAll (sepLines (q :: r')))).data = _
        simp [String.data_append]
      show wordsOf (concatAll (sepLines (p :: q :: r'))) = _
      unfold wordsOf
      rw [hdata, wordsAux_split_ws '\n' (by decide), wordsAux_trailing_ws '\n' (by decide)]
      have hi := ih
      unfold wordsOf at hi
      simp [hi]

/-- A prefix test only inspects the first `p.length` characters. -/
theorem isPrefixOf_take (p : List Char) :
    ∀ (l : List Char) (k : Nat), p.length ≤ k → p.isPrefixOf l = p.isPrefixOf (l.take k) := by
  induction p with
  | nil => intro l k _; simp [List.isPrefixOf]
  | cons c p' ih =>
    intro l k hk
    cases l with
    | nil => cases k <;> simp [List.isPrefixOf]
    | cons x l' =>
      cases k with
      | zero => exact absurd hk (by simp)
      | succ k' =>
        simp only [List.isPrefixOf, List.take]
        rw [ih l' k' (by simpa using hk)]

/-- Occurrence counting splits at an append boundary. -/
theorem countOcc_append (p : List Char) :
    ∀ (a b : List Char), countOcc p (a ++ b) = countStarts p a b + countOcc p b := by
  intro a
  induction a with
  | nil => intro b; simp [countStarts]
  | cons c a' ih =>
    intro b
    rw [List.cons_append, countOcc_cons, ih, countStarts_cons]
    omega

/-- Occurrences starting inside `a` need at most the next
`p.length - 1` characters of the continuation. -/
theorem countStarts_take (p : List Char) :
    ∀ (a b : List Char), countStarts p a b = countStarts p a (b.take (p.length - 1)) := by
  intro a
  induction a with
  | nil => intro b; simp [countStarts]
  | cons c a' ih =>
    intro b
    rw [countStarts_cons, countStarts_cons, ← ih]
    have hpref : p.isPrefixOf (c :: (a' ++ b))
        = p.isPrefixOf (c :: (a' ++ b.take (p.length - 1))) := by
      rw [isPrefixOf_take p (c :: (a' ++ b)) p.length (le_refl _),
          isPrefixOf_take p (c :: (a' ++ b.take (p.length - 1))) p.length (le_refl _)]
      cases p with
      | nil => simp
      | cons d p' =>
        congr 1
        simp only [List.length_cons, List.take_succ_cons, Nat.add_sub_cancel]
        rw [List.take_append_eq_append_take, List.take_append_eq_append_take, List.take_take]
        have hmin : min (p'.length - a'.length) p'.length = p'.length - a'.length := by omega
        rw [hmin]
    rw [hpref]

/-- Piecewise occurrence counting agrees with counting in the join. -/
theorem countOcc_joinAll (p : List Char) :
    ∀ L, countOcc p (joinAll L) = countOccPieces p L := by
  intro L
  induction L with
  | nil => rfl
  | cons a r ih =>
    show countOcc p (a ++ joinAll r) = _
    rw [countOcc_append, countStarts_take, ih]
    rfl

/-- Piecewise occurrence counting agrees with counting in the
concatenated string. -/
theorem countOcc_concatAll (p : List Char) (l : List String) :
    countOcc p (concatAll l).data = countOccPieces p (l.map String.data) := by
  rw [concatAll_data, countOcc_joinAll]

/-- Occurrence counting in the HTML output, reduced to the pieces. -/
theorem countInHtml_pieces (pat : String) (d : EmailDoc) :
    countInHtml pat d = countOccPieces pat.data ((docHtmlPieces d).map String.data) := by
  unfold countInHtml htmlOfDoc
  exact countOcc_concatAll _ _

/-- Occurrence counting in the text output, reduced to the pieces. -/
theorem countInText_pieces (pat : String) (d : EmailDoc) :
    countInText pat d = countOccPieces pat.data ((sepLines (docTextPieces d)).map String.data) := by
  unfold countInText textOfDoc
  exact countOcc_concatAll _ _

/-- Every text piece of a leaf is also an HTML piece of that leaf. -/
theorem leafText_subset (l : Leaf) : ∀ s ∈ leafTextPieces l, s ∈ leafHtmlPieces l := by
  cases l with
  | textBlock st c =>
    intro s hs
    simp only [leafTextPieces, List.mem_singleton] at hs
    subst hs
    simp [leafHtmlPieces]
  | rawText c =>
    intro s hs
    simp only [leafTextPieces, List.mem_singleton] at hs
    subst hs
    simp [leafHtmlPieces]
  | button st href label =>
    intro s hs
    simp only [leafTextPieces, List.mem_cons, List.not_mem_nil, or_false] at hs
    rcases hs with rfl | rfl
    · simp [leafHtmlPieces]
    · simp [leafHtmlPieces]
  | linkText st href label =>
    intro s hs
    simp only [leafTextPieces, List.mem_cons, List.not_mem_nil, or_false] at hs
    rcases hs with rfl | rfl
    · simp [leafHtmlPieces]
    · simp [leafHtmlPieces]
  | hr st =>
    intro s hs
    simp [leafTextPieces] at hs

/-- Every text piece of a leaf list is also an HTML piece of it. -/
theorem leavesText_subset : ∀ (cs : List Leaf) (s : String), s ∈ leavesTextPieces cs → s ∈ leavesHtmlPieces cs := by
  intro cs
  induction cs with
  | nil => intro s hs; cases hs
  | cons l r ih =>
    intro s hs
    simp only [leavesTextPieces, List.mem_append] at hs
    simp only [leavesHtmlPieces, List.mem_append]
    rcases hs with hs | hs
    · exact Or.inl (leafText_subset l s hs)
    · exact Or.inr (ih s hs)

/-- Every text piece of a depth-1 node is also an HTML piece of it. -/
theorem node1Text_subset (n : Node1) : ∀ s ∈ node1TextPieces n, s ∈ node1HtmlPieces n := by
  cases n with
  | leaf l => exact leafText_subset l
  | sect st cs =>
    intro s hs
    simp only [node1TextPieces] at hs
    simp only [node1HtmlPieces, List.mem_append, List.mem_cons]
    exact Or.inl (Or.inr (leavesText_subset cs s hs))

/-- Every text piece of a depth-1 node list is also an HTML piece. -/
theorem nodes1Text_subset : ∀ (ns : List Node1) (s : String), s ∈ nodes1TextPieces ns → s ∈ nodes1HtmlPieces ns := by
  intro ns
  induction ns with
  | nil => intro s hs; cases hs
  | cons n r ih =>
    intro s hs
    simp only [nodes1TextPieces, List.mem_append] at hs
    simp only [nodes1HtmlPieces, List.mem_append]
    rcases hs with hs | hs
    · exact Or.inl (node1Text_subset n s hs)
    · exact Or.inr (ih s hs)

/-- Every text piece of a depth-2 node is also an HTML piece of it. -/
theorem node2Text_subset (n : Node2) : ∀ s ∈ node2TextPieces n, s ∈ node2HtmlPieces n := by
  cases n with
  | up m => exact node1Text_subset m
  | sect st cs =>
    intro s hs
    simp only [node2TextPieces] at hs
    simp only [node2HtmlPieces, List.mem_append, List.mem_cons]
    exact Or.inl (Or.inr (nodes1Text_subset cs s hs))

/-- Every text piece of a depth-2 node list is also an HTML piece. -/
theorem nodes2Text_subset : ∀ (ns : List Node2) (s : String), s ∈ nodes2TextPieces ns → s ∈ nodes2HtmlPieces ns := by
  intro ns
  induction ns with
  | nil => intro s hs; cases hs
  | cons n r ih =>
    intro s hs
    simp only [nodes2TextPieces, List.mem_append] at hs
    simp only [nodes2HtmlPieces, List.mem_append]
    rcases hs with hs | hs
    · exact Or.inl (node2Text_subset n s hs)
    · exact Or.inr (ih s hs)

/-- Every text piece of a top-level node is also an HTML piece of it. -/
theorem node3Text_subset (n : Node3) : ∀ s ∈ node3TextPieces n, s ∈ node3HtmlPieces n := by
  cases n with
  | up m => exact node2Text_subset m
  | sect st cs =>
    intro s hs
    simp only [node3TextPieces] at hs
    simp only [node3HtmlPieces, List.mem_append, List.mem_cons]
    exact Or.inl (Or.inr (nodes2Text_subset cs s hs))

/-- Every text piece of a top-level node list is also an HTML piece. -/
theorem nodes3Text_subset : ∀ (ns : List Node3) (s : String), s ∈ nodes3TextPieces ns → s ∈ nodes3HtmlPieces ns := by
  intro ns
  induction ns with
  | nil => intro s hs; cases hs
  | cons n r ih =>
    intro s hs
    simp only [nodes3TextPieces, List.mem_append] at hs
    simp only [nodes3HtmlPieces, List.mem_append]
    rcases hs with hs | hs
    · exact Or.inl (node3Text_subset n s hs)
    · exact Or.inr (ih s hs)

/-- Every text piece of a document is also an HTML piece of it. -/
theorem docText_subset (d : EmailDoc) : ∀ s ∈ docTextPieces d, s ∈ docHtmlPieces d := by
  intro s hs
  simp only [docTextPieces] at hs
  simp only [docHtmlPieces, List.mem_append]
  exact Or.inl (Or.inr (nodes3Text_subset d.sections s hs))

/-- Every word of the plain-text output of a document occurs inside its
HTML output. -/
theorem word_of_text_in_html (d : EmailDoc) (w : List Char)
    (hw : w ∈ wordsOf (textOfDoc d)) : w <:+: (htmlOfDoc d).data := by
  unfold textOfDoc at hw
  rw [wordsOf_sepLines] at hw
  obtain ⟨ws, hmem, hwin⟩ := List.mem_flatten.mp hw
  obtain ⟨p, hp, rfl⟩ := List.mem_map.mp hmem
  have h2 : w <:+: p.data := by simpa using wordsAux_word_seg p.data [] w hwin
  have h3 : p ∈ docHtmlPieces d := docText_subset d p hp
  exact seg_trans h2 (mem_concatAll_seg h3)

/-- Bind of a successful `Except` step. -/
theorem except_bind_ok {α β : Type} (a : α) (f : α → Except String β) :
    (Except.ok a >>= f) = f a := rfl

/-- Bind of a failed `Except` step. -/
theorem except_bind_error {α β : Type} (e : String) (f : α → Except String β) :
    ((Except.error e : Except String α) >>= f) = .error e := rfl

/-- Rendering with format `both` builds the template once per output and
serializes the same document to HTML and text. -/
theorem renderBoth_spec (name : String) (build : Value → Except String EmailDoc)
    (hb : templateBuilders name = some build) (d : Value) :
    renderEmailTemplate name d (.vStr "both") =
      match build d with
      | .ok doc => .ok ⟨some (htmlOfDoc doc), some (textOfDoc doc)⟩
      | .error e => .error e := by
  unfold renderEmailTemplate
  rw [hb]
  show renderWithBuilder build d (.vStr "both") = _
  unfold renderWithBuilder
  cases hbd : build d with
  | ok doc => rfl
  | error e => rfl

/-- Claim C4: for every template name and Data Bag whose render succeeds
in mode both, every non-whitespace word of the text output occurs inside
the HTML output (hyperlink buttons contribute their label and their href
target to the text output, and both also appear in the HTML output). -/
theorem c4_text_words_subset_of_html (name : String) (d : Value) (h t : String)
    (hrender : renderEmailTemplate name d (.vStr "both") = .ok ⟨some h, some t⟩) :
    ∀ w ∈ wordsOf t, w <:+: h.data := by
  intro w hw
  cases hb : templateBuilders name with
  | none =>
    unfold renderEmailTemplate at hrender
    rw [hb] at hrender
    change (if objectPrototypeKeys.contains name = true then
        (Except.error "unmodelled: a property inherited from Object.prototype was used as a template" : Except String RenderResult)
      else Except.error ("Template \x27" ++ name ++ "\x27 not found"))
        = Except.ok ⟨some h, some t⟩ at hrender
    split at hrender <;> exact Except.noConfusion hrender
  | some build =>
    rw [renderBoth_spec name build hb d] at hrender
    cases hbd : build d with
    | ok doc =>
      rw [hbd] at hrender
      have h2 : htmlOfDoc doc = h ∧ textOfDoc doc = t := by
        injection hrender with h3
        simp only [RenderResult.mk.injEq, Option.some.injEq] at h3
        exact h3
      obtain ⟨hh, ht⟩ := h2
      subst hh
      subst ht
      exact word_of_text_in_html doc w hw
    | error e =>
      rw [hbd] at hrender
      exact Except.noConfusion hrender

/-- Witness for C4: the welcome render of the empty Data Bag has the
word produced by the heading inside its HTML output. -/
theorem c4_text_words_witness :
    "Welcome,".data <:+: (htmlOfDoc (docOf (buildWelcome (.vObj [])))).data := by
  have hmem : "Welcome,".data ∈ wordsOf (textOfDoc (docOf (buildWelcome (.vObj [])))) := by
    unfold textOfDoc
    rw [wordsOf_sepLines]
    decide
  exact c4_text_words_subset_of_html "welcome" (.vObj [])
    (htmlOfDoc (docOf (buildWelcome (.vObj []))))
    (textOfDoc (docOf (buildWelcome (.vObj [])))) rfl _ hmem

/-- Claim C5: the renderer is a pure deterministic function of its
inputs. The dispatcher response on the render route does not depend on
the clock (the timestamp read only feeds the health route), rendering
the same triple twice yields the same value by construction in a pure
model, and the welcome copyright line embeds the hard-coded literal
year in the HTML output of every successful render. -/
theorem c5_render_pure_deterministic :
    (∀ (t1 t2 : String) (req : HttpRequest), req.method = "POST" →
        startsWithStr req.path "/render/" = true →
        fetchHandler t1 req = fetchHandler t2 req)
    ∧ (∀ (name : String) (d : Value) (f : Value),
        renderEmailTemplate name d f = renderEmailTemplate name d f)
    ∧ (∀ (d : Value) (doc : EmailDoc), buildWelcome d = .ok doc →
        "© 2024".data <:+: (htmlOfDoc doc).data) := by
  refine ⟨?_, fun _ _ _ => rfl, ?_⟩
  · intro t1 t2 req hm hp
    obtain ⟨m, p, b⟩ := req
    simp only at hm hp
    subst hm
    have h0 : (("POST" : String) == "OPTIONS") = false := rfl
    have hg : (("POST" : String) == "GET") = false := rfl
    have h1 : (p == "/health") = false := by
      cases hpe : p == "/health"
      · rfl
      · exfalso
        have hpeq : p = "/health" := eq_of_beq hpe
        subst hpeq
        exact absurd hp (by decide)
    have h2 : (p == "/templates") = false := by
      cases hpe : p == "/templates"
      · rfl
      · exfalso
        have hpeq : p = "/templates" := eq_of_beq hpe
        subst hpeq
        exact absurd hp (by decide)
    simp [fetchHandler, h0, hg, h1, h2, hp]
  · intro d doc hb
    unfold buildWelcome at hb
    cases hgd : guardDestructure d with
    | error e =>
      rw [hgd, except_bind_error] at hb
      exact Except.noConfusion hb
    | ok u =>
      rw [hgd, except_bind_ok] at hb
      cases hcn : renderChild (destructureDefault d "companyName" (.vStr "Unipack")) with
      | error e =>
        rw [hcn, except_bind_error] at hb
        exact Except.noConfusion hb
      | ok cn =>
        rw [hcn, except_bind_ok] at hb
        cases hun : renderChild (destructureDefault d "username" (.vStr "User")) with
        | error e =>
          rw [hun, except_bind_error] at hb
          exact Except.noConfusion hb
        | ok un =>
          rw [hun, except_bind_ok] at hb
          cases hlu : hrefOfValue (destructureDefault d "loginUrl" (.vStr "#")) with
          | error e =>
            rw [hlu, except_bind_error] at hb
            exact Except.noConfusion hb
          | ok lu =>
            rw [hlu, except_bind_ok] at hb
            injection hb with hdoc
            subst hdoc
            have hmem : ("© 2024 " ++ cn ++ ". All rights reserved.")
                ∈ docHtmlPieces
                  { previewText := "Welcome to " ++ cn ++ " - Get started with your new account"
                    bodyStyle := styleMain
                    containerStyle := styleContainer
                    sections :=
                      [.sect welcomeHeaderStyle [leaf2 (.textBlock welcomeLogoStyle cn)],
                       .sect styleContent
                         [leaf2 (.textBlock styleHeading ("Welcome, " ++ un ++ "!")),
                          leaf2 (.textBlock styleText ("We\x27re thrilled to have you join the " ++ cn ++ " community. Your account has been successfully created, and you\x27re ready to get started.")),
                          leaf2 (.textBlock styleText "Click the button below to access your dashboard and begin exploring all the features we have to offer:"),
                          .sect styleButtonContainer [.leaf (.button welcomeButtonStyle lu "Get Started")],
                          leaf2 (.hr styleHr),
                          leaf2 (.textBlock styleText "If you have any questions or need assistance, our support team is here to help. Feel free to reply to this email or contact us through our help center.")],
                       .sect styleFooter
                         [leaf2 (.textBlock styleFooterText ("© 2024 " ++ cn ++ ". All rights reserved.")),
                          leaf2 (.textBlock styleFooterText ("This email was sent to you because you created an account with " ++ cn ++ "."))]] } := by
              simp [docHtmlPieces, nodes3HtmlPieces, node3HtmlPieces, nodes2HtmlPieces,
                node2HtmlPieces, nodes1HtmlPieces, node1HtmlPieces, leavesHtmlPieces,
                leafHtmlPieces, leaf2]
            have hlit : ("© 2024 " : String).data = "© 2024".data ++ [' '] := by decide
            have hseg : "© 2024".data <:+: ("© 2024 " ++ cn ++ ". All rights reserved.").data := by
              refine ⟨[], [' '] ++ cn.data ++ ". All rights reserved.".data, ?_⟩
              simp [String.data_append, hlit]
            exact seg_trans hseg (mem_concatAll_seg hmem)

/-- Witness for C5: two renders of the same request under different
clock values are equal, and the default welcome HTML embeds the literal
year. -/
theorem c5_render_pure_witness :
    fetchHandler "2024-01-01T00:00:00.000Z" ⟨"POST", "/render/welcome", .json (.vObj [])⟩
      = fetchHandler "2025-06-30T12:00:00.000Z" ⟨"POST", "/render/welcome", .json (.vObj [])⟩
    ∧ "© 2024".data <:+: (htmlOfDoc (docOf (buildWelcome (.vObj [])))).data := by
  constructor
  · exact c5_render_pure_deterministic.1 _ _ _ rfl rfl
  · exact c5_render_pure_deterministic.2.2 (.vObj []) (docOf (buildWelcome (.vObj []))) rfl

/-- Pure of the `Except` monad. -/
theorem except_pure {α : Type} (a : α) : (pure a : Except String α) = .ok a := rfl

/-- Claim C1 (counterexample): supplying JSON null for the welcome
username does not yield the default. The merged value stays null, the
heading renders with empty text, and the default label does not occur
anywhere in the HTML output. -/
theorem c1_null_keeps_null_not_default :
    destructureDefault (.vObj [("username", .vNull)]) "username" (.vStr "User") = .vNull
    ∧ destructureDefault (.vObj [("username", .vNull)]) "username" (.vStr "User") ≠ .vStr "User"
    ∧ welcomeHeadingContent (docOf (buildWelcome (.vObj [("username", .vNull)]))) = some "Welcome, !"
    ∧ countInHtml "User" (docOf (buildWelcome (.vObj [("username", .vNull)]))) = 0 := by
  refine ⟨rfl, ?_, rfl, ?_⟩
  · intro h
    exact Value.noConfusion h
  · rw [countInHtml_pieces]
    decide

/-- Claim C1 (amended): the merged value equals the Data Bag value
whenever the key is present, including an explicit null; the declared
default is used only when the key is absent; null renders as empty text;
and a present string username is substituted verbatim into the welcome
heading. -/
theorem c1_merge_default_only_when_absent :
    (∀ (d : Value) (k : String) (v dflt : Value),
        lookupField d k = some v → destructureDefault d k dflt = v)
    ∧ (∀ (d : Value) (k : String) (dflt : Value),
        lookupField d k = none → destructureDefault d k dflt = dflt)
    ∧ renderChild .vNull = .ok ""
    ∧ (∀ u : String, ∃ doc, buildWelcome (.vObj [("username", .vStr u)]) = .ok doc
        ∧ welcomeHeadingContent doc = some ("Welcome, " ++ u ++ "!")) := by
  refine ⟨?_, ?_, rfl, ?_⟩
  · intro d k v dflt h
    unfold destructureDefault
    rw [h]
  · intro d k dflt h
    unfold destructureDefault
    rw [h]
  · intro u
    exact ⟨welcomeDoc "Unipack" u "#", rfl, rfl⟩

/-- Witness for the amended C1 at concrete inputs. -/
theorem c1_merge_witness :
    destructureDefault (.vObj [("companyName", .vStr "Acme")]) "companyName" (.vStr "Unipack") = .vStr "Acme"
    ∧ destructureDefault (.vObj []) "companyName" (.vStr "Unipack") = .vStr "Unipack"
    ∧ welcomeHeadingContent (docOf (buildWelcome (.vObj [("username", .vStr "Bob")]))) = some "Welcome, Bob!" := by
  refine ⟨c1_merge_default_only_when_absent.1 _ _ _ _ rfl,
    c1_merge_default_only_when_absent.2.1 _ _ _ rfl, ?_⟩
  obtain ⟨doc, h1, h2⟩ := c1_merge_default_only_when_absent.2.2.2 "Bob"
  have h3 : docOf (buildWelcome (.vObj [("username", .vStr "Bob")])) = doc := by
    rw [h1]
    rfl
  rw [h3]
  exact h2

/-- Claim C2 (counterexample): the merge and build steps are not total
over arbitrary input. A non-string companyName makes the password-reset
footer throw on `toLowerCase`, and a non-array articles value makes the
newsletter throw on `articles.map`. -/
theorem c2_merge_build_not_total :
    buildPasswordReset (.vObj [("companyName", .vNum 5)])
      = .error "TypeError: companyName.toLowerCase is not a function"
    ∧ buildNewsletter (.vObj [("articles", .vStr "not-an-array")])
      = .error "TypeError: articles.map is not a function" := ⟨rfl, rfl⟩

/-- The welcome build as a flat bind chain. -/
theorem buildWelcome_spec (d : Value) :
    buildWelcome d =
      (guardDestructure d >>= fun _ =>
       renderChild (destructureDefault d "companyName" (.vStr "Unipack")) >>= fun cn =>
       renderChild (destructureDefault d "username" (.vStr "User")) >>= fun un =>
       hrefOfValue (destructureDefault d "loginUrl" (.vStr "#")) >>= fun lu =>
       pure (welcomeDoc cn un lu)) := rfl

/-- The password-reset build as a flat bind chain. -/
theorem buildPasswordReset_spec (d : Value) :
    buildPasswordReset d =
      (guardDestructure d >>= fun _ =>
       renderChild (destructureDefault d "companyName" (.vStr "Unipack")) >>= fun cn =>
       renderChild (destructureDefault d "username" (.vStr "User")) >>= fun un =>
       hrefOfValue (destructureDefault d "resetUrl" (.vStr "#")) >>= fun ru =>
       renderChild (destructureDefault d "expiryTime" (.vStr "24 hours")) >>= fun et =>
       renderChild (destructureDefault d "resetUrl" (.vStr "#")) >>= fun ruText =>
       jsToLowerCase (destructureDefault d "companyName" (.vStr "Unipack")) >>= fun lowCn =>
       pure (passwordResetDoc cn un ru et ruText lowCn)) := rfl

/-- The newsletter build as a flat bind chain. -/
theorem buildNewsletter_spec (d : Value) :
    buildNewsletter d =
      (guardDestructure d >>= fun _ =>
       renderChild (destructureDefault d "title" (.vStr "Weekly Newsletter")) >>= fun ttl =>
       renderChild (destructureDefault d "companyName" (.vStr "Unipack")) >>= fun cn =>
       articlesElems (destructureDefault d "articles" defaultNewsletterArticles) >>= fun articleElems =>
       newsletterArticlesBlocks articleElems.length 0 articleElems >>= fun blocks =>
       hrefOfValue (destructureDefault d "unsubscribeUrl" (.vStr "#")) >>= fun unsub =>
       pure (newsletterDoc ttl cn blocks unsub)) := rfl

/-- One article-map step as a flat bind chain. -/
theorem newsletterArticleBlock_spec (len idx : Nat) (article : Value) :
    newsletterArticleBlock len idx article =
      (getMember article "url" >>= fun urlOpt =>
       urlHrefOf urlOpt >>= fun urlHref =>
       getMember article "title" >>= fun titleOpt =>
       renderOpt titleOpt >>= fun title =>
       getMember article "excerpt" >>= fun excerptOpt =>
       renderOpt excerptOpt >>= fun excerpt =>
       getMember article "readTime" >>= fun rtOpt =>
       readTimeNodes rtOpt >>= fun rtNodes =>
       pure (.sect nlArticleSectionStyle
         ([.sect nlArticleTitleStyle [.linkText nlArticleLinkStyle urlHref title],
           .leaf (.textBlock nlArticleExcerptStyle excerpt)]
          ++ rtNodes
          ++ [.sect nlArticleButtonContainerStyle [.button nlArticleButtonStyle urlHref "Read More"]]
          ++ (if idx < len - 1 then [Node1.leaf (.hr nlArticleHrStyle)] else [])))) := rfl

/-- The merged value at a string-typed key is a string. -/
theorem destructure_scalar {d : Value} {k : String} (h : scalarStringAt d k) (dflt : String) :
    ∃ s, destructureDefault d k (.vStr dflt) = .vStr s := by
  unfold destructureDefault
  cases hl : lookupField d k with
  | none => exact ⟨dflt, rfl⟩
  | some v =>
    obtain ⟨s, rfl⟩ := h v hl
    exact ⟨s, rfl⟩

/-- A well-typed article record produces an article block without an
error. -/
theorem articleBlock_ok (len idx : Nat) {a : Value} (h : wellTypedArticleValue a) :
    ∃ b, newsletterArticleBlock len idx a = .ok b := by
  obtain ⟨fs, rfl, hfs⟩ := h
  rw [newsletterArticleBlock_spec]
  have hgm : ∀ k, getMember (Value.vObj fs) k = .ok (List.lookup k fs) := fun _ => rfl
  obtain ⟨su, hsu⟩ : ∃ s, urlHrefOf (List.lookup "url" fs) = .ok s := by
    cases hl : List.lookup "url" fs with
    | none => exact ⟨"", rfl⟩
    | some v =>
      obtain ⟨s, rfl⟩ := hfs "url" v hl
      exact ⟨s, rfl⟩
  obtain ⟨stt, hstt⟩ : ∃ s, renderOpt (List.lookup "title" fs) = .ok s := by
    cases hl : List.lookup "title" fs with
    | none => exact ⟨"", rfl⟩
    | some v =>
      obtain ⟨s, rfl⟩ := hfs "title" v hl
      exact ⟨s, rfl⟩
  obtain ⟨sex, hsex⟩ : ∃ s, renderOpt (List.lookup "excerpt" fs) = .ok s := by
    cases hl : List.lookup "excerpt" fs with
    | none => exact ⟨"", rfl⟩
    | some v =>
      obtain ⟨s, rfl⟩ := hfs "excerpt" v hl
      exact ⟨s, rfl⟩
  obtain ⟨rtn, hrtn⟩ : ∃ ns, readTimeNodes (List.lookup "readTime" fs) = .ok ns := by
    cases hl : List.lookup "readTime" fs with
    | none => exact ⟨[], rfl⟩
    | some v =>
      obtain ⟨s, rfl⟩ := hfs "readTime" v hl
      simp only [readTimeNodes]
      by_cases ht : truthy (Value.vStr s) = true
      · rw [if_pos ht]
        exact ⟨_, rfl⟩
      · rw [if_neg ht]
        exact ⟨_, rfl⟩
  simp only [hgm, except_bind_ok, hsu, hstt, hsex, hrtn, except_pure]
  exact ⟨_, rfl⟩

/-- A list of well-typed article records expands without an error. -/
theorem articlesBlocks_ok (len : Nat) :
    ∀ (idx : Nat) (elems : List Value), (∀ a ∈ elems, wellTypedArticleValue a) →
      ∃ bs, newsletterArticlesBlocks len idx elems = .ok bs := by
  intro idx elems
  induction elems generalizing idx with
  | nil =>
    intro _
    exact ⟨[], rfl⟩
  | cons a r ih =>
    intro hall
    obtain ⟨b, hb⟩ := articleBlock_ok len idx (hall a (by simp))
    obtain ⟨bs, hbs⟩ := ih (idx + 1) (fun x hx => hall x (by simp [hx]))
    refine ⟨b :: bs, ?_⟩
    simp only [newsletterArticlesBlocks, hb, hbs, except_bind_ok, except_pure]

/-- Destructuring succeeds on every non-null props value. -/
theorem guard_ok_of_ne_null {d : Value} (h : d ≠ .vNull) : guardDestructure d = .ok () := by
  cases d with
  | vNull => exact absurd rfl h
  | vBool b => rfl
  | vNum n => rfl
  | vStr s => rfl
  | vArr l => rfl
  | vObj fs => rfl

/-- Claim C2 (amended): the merge and build steps complete without an
error for every Data Bag whose supplied values match the declared
parameter types — strings for the scalar parameters and, for articles,
an array of records with string fields. (With a non-array articles value
or a non-string companyName they throw a TypeError instead, see the
counterexample.) -/
theorem c2_build_total_on_well_typed (d : Value) (hnn : d ≠ .vNull)
    (hus : scalarStringAt d "username") (hls : scalarStringAt d "loginUrl")
    (hcs : scalarStringAt d "companyName") (hts : scalarStringAt d "title")
    (hu2 : scalarStringAt d "unsubscribeUrl") (hrs : scalarStringAt d "resetUrl")
    (hes : scalarStringAt d "expiryTime") (has : articlesWellTyped d) :
    (∃ doc, buildWelcome d = .ok doc)
    ∧ (∃ doc, buildNewsletter d = .ok doc)
    ∧ (∃ doc, buildPasswordReset d = .ok doc) := by
  have hg := guard_ok_of_ne_null hnn
  obtain ⟨cn, hcn⟩ := destructure_scalar hcs "Unipack"
  obtain ⟨un, hun⟩ := destructure_scalar hus "User"
  obtain ⟨lu, hlu⟩ := destructure_scalar hls "#"
  obtain ⟨ttl, httl⟩ := destructure_scalar hts "Weekly Newsletter"
  obtain ⟨uns, hun2⟩ := destructure_scalar hu2 "#"
  obtain ⟨ru, hru⟩ := destructure_scalar hrs "#"
  obtain ⟨et, het⟩ := destructure_scalar hes "24 hours"
  refine ⟨⟨welcomeDoc cn un lu, ?_⟩, ?_, ⟨passwordResetDoc cn un ru et ru (String.mk (lowerChars cn.data)), ?_⟩⟩
  · rw [buildWelcome_spec]
    simp only [hg, hcn, hun, hlu, renderChild, hrefOfValue, except_bind_ok, except_pure]
  · have hblocks : ∃ elems bs,
        articlesElems (destructureDefault d "articles" defaultNewsletterArticles) = .ok elems
        ∧ newsletterArticlesBlocks elems.length 0 elems = .ok bs := by
      unfold destructureDefault
      cases hart : lookupField d "articles" with
      | none => exact ⟨_, _, rfl, rfl⟩
      | some v =>
        obtain ⟨elems, rfl, hwt⟩ := has v hart
        obtain ⟨bs, hbs⟩ := articlesBlocks_ok elems.length 0 elems hwt
        exact ⟨elems, bs, rfl, hbs⟩
    obtain ⟨elems, bs, hae, hbs⟩ := hblocks
    refine ⟨newsletterDoc ttl cn bs uns, ?_⟩
    rw [buildNewsletter_spec]
    simp only [hg, httl, hcn, hae, hbs, hun2, renderChild, hrefOfValue, except_bind_ok, except_pure]
  · rw [buildPasswordReset_spec]
    simp only [hg, hcn, hun, hru, het, renderChild, hrefOfValue, jsToLowerCase,
      except_bind_ok, except_pure]

/-- Witness for the amended C2: a concrete well-typed Data Bag builds
all three templates without an error. -/
theorem c2_build_total_witness :
    (buildWelcome (.vObj [("username", .vStr "W"), ("articles", .vArr [.vObj [("title", .vStr "T")]])])).toOption.isSome = true
    ∧ (buildNewsletter (.vObj [("username", .vStr "W"), ("articles", .vArr [.vObj [("title", .vStr "T")]])])).toOption.isSome = true
    ∧ (buildPasswordReset (.vObj [("username", .vStr "W"), ("articles", .vArr [.vObj [("title", .vStr "T")]])])).toOption.isSome = true := by
  have hmain := c2_build_total_on_well_typed
    (.vObj [("username", .vStr "W"), ("articles", .vArr [.vObj [("title", .vStr "T")]])])
    (by intro h; exact Value.noConfusion h)
    (by intro v hv; injection hv with h; exact ⟨"W", h.symm⟩)
    (by intro v hv; exact Option.noConfusion hv)
    (by intro v hv; exact Option.noConfusion hv)
    (by intro v hv; exact Option.noConfusion hv)
    (by intro v hv; exact Option.noConfusion hv)
    (by intro v hv; exact Option.noConfusion hv)
    (by intro v hv; exact Option.noConfusion hv)
    (by
      intro v hv
      injection hv with h
      refine ⟨[.vObj [("title", .vStr "T")]], h.symm, ?_⟩
      intro a ha
      rcases List.mem_singleton.mp ha with rfl
      refine ⟨[("title", .vStr "T")], rfl, ?_⟩
      intro k v hv2
      cases hk : (k == "title") with
      | true =>
        rw [show List.lookup k [("title", Value.vStr "T")]
            = some (Value.vStr "T") from by simp [List.lookup, hk]] at hv2
        injection hv2 with h2
        exact ⟨"T", h2.symm⟩
      | false =>
        rw [show List.lookup k [("title", Value.vStr "T")]
            = none from by simp [List.lookup, hk]] at hv2
        exact Option.noConfusion hv2)
  obtain ⟨⟨d1, h1⟩, ⟨d2, h2⟩, ⟨d3, h3⟩⟩ := hmain
  rw [h1, h2, h3]
  exact ⟨rfl, rfl, rfl⟩

/-- Member access on an object value is the field lookup. -/
theorem getMember_obj (fs : List (String × Value)) (k : String) :
    getMember (.vObj fs) k = .ok (List.lookup k fs) := rfl

/-- The article-map body on the encoding of a well-formed article
produces exactly the expected block. -/
theorem articleBlock_toValue (len idx : Nat) (a : Article) :
    newsletterArticleBlock len idx a.toValue
      = .ok (expectedArticleBlock (decide (idx < len - 1)) a) := by
  rw [newsletterArticleBlock_spec]
  unfold Article.toValue
  cases hrt : a.readTime with
  | none =>
    by_cases hdiv : idx < len - 1 <;>
      simp [getMember_obj, except_bind_ok, except_pure, urlHrefOf, renderOpt, renderChild,
        hrefOfValue, readTimeNodes, expectedArticleBlock, hrt, hdiv, List.lookup]
  | some rt =>
    by_cases hre : rt = ""
    · subst hre
      by_cases hdiv : idx < len - 1 <;>
        simp [getMember_obj, except_bind_ok, except_pure, urlHrefOf, renderOpt, renderChild,
          hrefOfValue, readTimeNodes, truthy, expectedArticleBlock, hrt, hdiv, List.lookup]
    · have htr : truthy (Value.vStr rt) = true := by
        simp [truthy, hre]
      have hbe : (rt == "") = false := by
        simp [hre]
      by_cases hdiv : idx < len - 1 <;>
        simp [getMember_obj, except_bind_ok, except_pure, urlHrefOf, renderOpt, renderChild,
          hrefOfValue, readTimeNodes, htr, hbe, expectedArticleBlock, hrt, hdiv, List.lookup]

/-- The article map on encoded well-formed articles produces exactly the
expected blocks. -/
theorem blocks_toValue (len : Nat) :
    ∀ (idx : Nat) (arts : List Article),
      newsletterArticlesBlocks len idx (arts.map Article.toValue)
        = .ok (expectedBlocks len idx arts) := by
  intro idx arts
  induction arts generalizing idx with
  | nil => rfl
  | cons a r ih =>
    show newsletterArticlesBlocks len idx (a.toValue :: r.map Article.toValue) = _
    simp only [newsletterArticlesBlocks, articleBlock_toValue, except_bind_ok, ih,
      except_pure, expectedBlocks]

/-- The expected blocks are one per article. -/
theorem expectedBlocks_length (len : Nat) :
    ∀ (idx : Nat) (arts : List Article), (expectedBlocks len idx arts).length = arts.length := by
  intro idx arts
  induction arts generalizing idx with
  | nil => rfl
  | cons a r ih => simp [expectedBlocks, ih]

/-- The title of an expected block. -/
theorem articleBlockTitle_expected (w : Bool) (a : Article) :
    articleBlockTitle (expectedArticleBlock w a) = some a.title := by
  unfold expectedArticleBlock articleBlockTitle
  rfl

/-- The expected blocks carry the article titles in order. -/
theorem expectedBlocks_titles (len : Nat) :
    ∀ (idx : Nat) (arts : List Article),
      (expectedBlocks len idx arts).map articleBlockTitle
        = arts.map (fun a => some a.title) := by
  intro idx arts
  induction arts generalizing idx with
  | nil => rfl
  | cons a r ih => simp [expectedBlocks, articleBlockTitle_expected, ih]

/-- An expected block ends with a divider exactly when requested. -/
theorem articleBlockEndsWithHr_expected (w : Bool) (a : Article) :
    articleBlockEndsWithHr (expectedArticleBlock w a) = w := by
  unfold expectedArticleBlock articleBlockEndsWithHr
  cases hrt : a.readTime with
  | none => cases w <;> rfl
  | some rt =>
    by_cases hre : rt = ""
    · subst hre
      cases w <;> rfl
    · have hbe : (rt == "") = false := by simp [hre]
      cases w <;> simp [hbe]

/-- An expected block carries a read-time text node exactly when the
article has a non-empty read time. -/
theorem articleBlockHasReadTime_expected (w : Bool) (a : Article) :
    articleBlockHasReadTime (expectedArticleBlock w a)
      = decide (a.readTime ≠ none ∧ a.readTime ≠ some "") := by
  unfold expectedArticleBlock articleBlockHasReadTime
  cases hrt : a.readTime with
  | none => cases w <;> rfl
  | some rt =>
    by_cases hre : rt = ""
    · subst hre
      cases w <;> rfl
    · have hbe : (rt == "") = false := by simp [hre]
      cases w <;> simp [hbe, hre]

/-- Divider flags of the expected blocks by position. -/
theorem expectedBlocks_hr (len : Nat) :
    ∀ (arts : List Article) (idx i : Nat), i < arts.length →
      articleBlockEndsWithHr ((expectedBlocks len idx arts).getD i emptyBlock)
        = decide (idx + i < len - 1) := by
  intro arts
  induction arts with
  | nil =>
    intro idx i h
    exact absurd h (by simp)
  | cons a r ih =>
    intro idx i h
    cases i with
    | zero =>
      show articleBlockEndsWithHr (expectedArticleBlock (decide (idx < len - 1)) a) = _
      rw [articleBlockEndsWithHr_expected]
      simp
    | succ j =>
      show articleBlockEndsWithHr ((expectedBlocks len (idx + 1) r).getD j emptyBlock) = _
      rw [ih (idx + 1) j (by simpa using h)]
      have harith : idx + 1 + j = idx + (j + 1) := by omega
      rw [harith]

/-- Read-time flags of the expected blocks by position. -/
theorem expectedBlocks_rt (len : Nat) :
    ∀ (arts : List Article) (idx i : Nat), i < arts.length →
      articleBlockHasReadTime ((expectedBlocks len idx arts).getD i emptyBlock)
        = decide ((arts.getD i defaultArticle).readTime ≠ none
            ∧ (arts.getD i defaultArticle).readTime ≠ some "") := by
  intro arts
  induction arts with
  | nil =>
    intro idx i h
    exact absurd h (by simp)
  | cons a r ih =>
    intro idx i h
    cases i with
    | zero =>
      show articleBlockHasReadTime (expectedArticleBlock (decide (idx < len - 1)) a) = _
      rw [articleBlockHasReadTime_expected]
      rfl
    | succ j =>
      show articleBlockHasReadTime ((expectedBlocks len (idx + 1) r).getD j emptyBlock) = _
      rw [ih (idx + 1) j (by simpa using h)]
      rfl

/-- The newsletter built on an array-valued articles key embeds the
expanded blocks as its third section. -/
theorem buildNewsletter_arr (elems : List Value) (bs : List Node2)
    (hbs : newsletterArticlesBlocks elems.length 0 elems = .ok bs) :
    buildNewsletter (.vObj [("articles", .vArr elems)])
      = .ok (newsletterDoc "Weekly Newsletter" "Unipack" bs "#") := by
  rw [show buildNewsletter (.vObj [("articles", .vArr elems)])
      = (newsletterArticlesBlocks elems.length 0 elems >>= fun blocks =>
          pure (newsletterDoc "Weekly Newsletter" "Unipack" blocks "#")) from rfl]
  rw [hbs]
  rfl

/-- Claim C3: the newsletter rendered with N well-formed article records
produces exactly N article blocks in list order, carrying the article
titles in order, with a divider inside every block except the last (so
a divider sits between consecutive blocks and none follows the last),
and with a read-time text node exactly for those articles whose readTime
field is present and non-empty; the expanded blocks form the third
section of the built newsletter document. -/
theorem c3_newsletter_list_expansion (arts : List Article) :
    ∃ ns, newsletterArticlesBlocks arts.length 0 (arts.map Article.toValue) = .ok ns
      ∧ ns.length = arts.length
      ∧ ns.map articleBlockTitle = arts.map (fun a => some a.title)
      ∧ (∀ i, i < arts.length →
          articleBlockEndsWithHr (ns.getD i emptyBlock) = decide (i + 1 < arts.length))
      ∧ (∀ i, i < arts.length →
          articleBlockHasReadTime (ns.getD i emptyBlock)
            = decide ((arts.getD i defaultArticle).readTime ≠ none
                ∧ (arts.getD i defaultArticle).readTime ≠ some ""))
      ∧ (∃ doc, buildNewsletter (.vObj [("articles", .vArr (arts.map Article.toValue))]) = .ok doc
          ∧ doc.sections.getD 2 (leaf3 (.rawText ""))
            = .sect styleContent ([leaf2 (.textBlock nlSectionHeadingStyle "Latest Articles")]
                ++ ns)) := by
  refine ⟨expectedBlocks arts.length 0 arts, blocks_toValue arts.length 0 arts,
    expectedBlocks_length arts.length 0 arts, expectedBlocks_titles arts.length 0 arts,
    ?_, ?_, ?_⟩
  · intro i h
    rw [expectedBlocks_hr arts.length arts 0 i h, decide_eq_decide]
    omega
  · intro i h
    exact expectedBlocks_rt arts.length arts 0 i h
  · refine ⟨newsletterDoc "Weekly Newsletter" "Unipack" (expectedBlocks arts.length 0 arts) "#",
      ?_, rfl⟩
    have hbs := blocks_toValue ((arts.map Article.toValue).length) 0 arts
    rw [List.length_map] at hbs
    have hlen : (arts.map Article.toValue).length = arts.length := by
      rw [List.length_map]
    exact buildNewsletter_arr (arts.map Article.toValue)
      (expectedBlocks arts.length 0 arts) (by rw [hlen]; exact hbs)

/-- Witness for C3 at two concrete articles, one with a read time and
one without. -/
theorem c3_newsletter_witness :
    ∃ ns, newsletterArticlesBlocks 2 0
        ([⟨"T1", "E1", "U1", some "5 min"⟩, ⟨"T2", "E2", "U2", none⟩].map Article.toValue)
        = .ok ns
      ∧ ns.length = 2
      ∧ ns.map articleBlockTitle = [some "T1", some "T2"]
      ∧ articleBlockEndsWithHr (ns.getD 0 emptyBlock) = true
      ∧ articleBlockEndsWithHr (ns.getD 1 emptyBlock) = false
      ∧ articleBlockHasReadTime (ns.getD 0 emptyBlock) = true
      ∧ articleBlockHasReadTime (ns.getD 1 emptyBlock) = false := by
  obtain ⟨ns, h1, h2, h3, h4, h5, _⟩ :=
    c3_newsletter_list_expansion [⟨"T1", "E1", "U1", some "5 min"⟩, ⟨"T2", "E2", "U2", none⟩]
  refine ⟨ns, h1, h2, by simpa using h3, ?_, ?_, ?_, ?_⟩
  · rw [h4 0 (by decide)]
    decide
  · rw [h4 1 (by decide)]
    decide
  · rw [h5 0 (by decide)]
    decide
  · rw [h5 1 (by decide)]
    decide

/-- Claim C6 (counterexample): a valid-JSON body whose data field is the
string value foo on a known template is not rejected with 400; the
request renders with all-default parameters and answers 200 with
success true. -/
theorem c6_nonmap_data_not_rejected :
    statusOf (fetchHandler "T0" ⟨"POST", "/render/welcome", .json (.vObj [("data", .vStr "foo")])⟩) = 200
    ∧ successFlag (fetchHandler "T0" ⟨"POST", "/render/welcome", .json (.vObj [("data", .vStr "foo")])⟩) = some true
    ∧ statusOf (fetchHandler "T0" ⟨"POST", "/render/welcome", .json (.vObj [("data", .vStr "foo")])⟩) ≠ 400 := by
  refine ⟨rfl, rfl, ?_⟩
  decide

/-- Claim C7: the registry guard is the truthiness of a JS property read
on an object literal, so a name inherited from Object.prototype passes
it and never receives the 404 envelope, while a genuinely unknown name
receives the 404 envelope whose message lists the valid template
names. -/
theorem c7_inherited_prototype_name_skips_404 :
    templatesLookupTruthy "hasOwnProperty" = true
    ∧ fetchHandler "T0" ⟨"POST", "/render/hasOwnProperty", .malformed⟩ = .json 400 invalidJsonPayload
    ∧ statusOf (fetchHandler "T0" ⟨"POST", "/render/hasOwnProperty", .malformed⟩) ≠ 404
    ∧ fetchHandler "T0" ⟨"POST", "/render/no-such-template", .json (.vObj [])⟩
        = .json 404 (templateNotFoundPayload "no-such-template")
    ∧ errorMessage (fetchHandler "T0" ⟨"POST", "/render/no-such-template", .json (.vObj [])⟩)
        = some "Template \x27no-such-template\x27 not found. Available templates: welcome, newsletter, password-reset" := by
  refine ⟨rfl, rfl, ?_, rfl, rfl⟩
  decide

/-- Claim C10: the existence check runs before the body is parsed, but
it mis-identifies names inherited from Object.prototype as known: an
ordinary unknown name with an unparseable body gets the 404 envelope,
while the unknown name toString with an unparseable body reaches the
JSON parse and gets the 400 Invalid-JSON envelope. -/
theorem c10_unknown_name_with_bad_json :
    fetchHandler "T0" ⟨"POST", "/render/does-not-exist", .malformed⟩
      = .json 404 (templateNotFoundPayload "does-not-exist")
    ∧ fetchHandler "T0" ⟨"POST", "/render/toString", .malformed⟩ = .json 400 invalidJsonPayload
    ∧ statusOf (fetchHandler "T0" ⟨"POST", "/render/toString", .malformed⟩) = 400 :=
  ⟨rfl, rfl, rfl⟩

/-- Claim C9: the welcome template rendered in html mode with the empty
Data Bag embeds the literal default username and the literal default
company name. -/
theorem c9_welcome_defaults :
    renderEmailTemplate "welcome" (.vObj []) (.vStr "html")
      = .ok ⟨some (htmlOfDoc (docOf (buildWelcome (.vObj [])))), none⟩
    ∧ 0 < countInHtml "User" (docOf (buildWelcome (.vObj [])))
    ∧ 0 < countInHtml "Unipack" (docOf (buildWelcome (.vObj []))) := by
  refine ⟨rfl, ?_, ?_⟩
  · rw [countInHtml_pieces]
    decide
  · rw [countInHtml_pieces]
    decide

/-- Claim C8: the password-reset example scenario. Rendering with the
Ana Data Bag in mode both yields HTML containing Ana, containing the
reset URL exactly twice (the button target and the printed URL), and
containing the expiry text; the text output contains the same three
substrings and no angle-bracket characters. -/
theorem c8_password_reset_scenario :
    renderEmailTemplate "password-reset" anaData (.vStr "both")
      = .ok ⟨some (htmlOfDoc (docOf (buildPasswordReset anaData))),
             some (textOfDoc (docOf (buildPasswordReset anaData)))⟩
    ∧ 0 < countInHtml "Ana" (docOf (buildPasswordReset anaData))
    ∧ countInHtml "https://x/y" (docOf (buildPasswordReset anaData)) = 2
    ∧ 0 < countInHtml "2 hours" (docOf (buildPasswordReset anaData))
    ∧ 0 < countInText "Ana" (docOf (buildPasswordReset anaData))
    ∧ 0 < countInText "https://x/y" (docOf (buildPasswordReset anaData))
    ∧ 0 < countInText "2 hours" (docOf (buildPasswordReset anaData))
    ∧ countInText "<" (docOf (buildPasswordReset anaData)) = 0
    ∧ countInText ">" (docOf (buildPasswordReset anaData)) = 0 := by
  refine ⟨rfl, ?_, ?_, ?_, ?_, ?_, ?_, ?_, ?_⟩
  · rw [countInHtml_pieces]
    decide
  · rw [countInHtml_pieces]
    decide
  · rw [countInHtml_pieces]
    decide
  · rw [countInText_pieces]
    decide
  · rw [countInText_pieces]
    decide
  · rw [countInText_pieces]
    decide
  · rw [countInText_pieces]
    decide
  · rw [countInText_pieces]
    decide

/-- Claim C6 (amended): a valid-JSON body whose data field is not a map
is not rejected. A falsy data value is replaced by the empty object and
a truthy non-map value destructures to no fields, so for every
registered template the request renders with all-default parameters and
answers 200 with success true; the 400 Invalid-JSON envelope is produced
only when the body itself fails to parse. -/
theorem c6_truthy_nonmap_renders_defaults :
    (∀ name, name ∈ templateNames → ∀ (v : Value), (∀ fs, v ≠ .vObj fs) → ∀ now : String,
      statusOf (fetchHandler now ⟨"POST", "/render/" ++ name, .json (.vObj [("data", v)])⟩) = 200
      ∧ successFlag (fetchHandler now ⟨"POST", "/render/" ++ name, .json (.vObj [("data", v)])⟩)
          = some true)
    ∧ (∀ name, name ∈ templateNames → ∀ now : String,
      fetchHandler now ⟨"POST", "/render/" ++ name, .malformed⟩ = .json 400 invalidJsonPayload) := by
  constructor
  · intro name hname v hv now
    simp only [templateNames, List.mem_cons, List.not_mem_nil, or_false] at hname
    rcases hname with rfl | rfl | rfl
    · have h2 : fetchHandler now ⟨"POST", "/render/" ++ "welcome", .json (.vObj [("data", v)])⟩
          = (match renderEmailTemplate "welcome" (if truthy v then v else Value.vObj [])
                (.vStr "html") with
             | .ok rr => HttpResponse.json 200 (successPayload rr)
             | .error e => HttpResponse.json 500 (serverErrorPayload e)) := rfl
      rw [h2]
      cases v with
      | vObj fs => exact absurd rfl (hv fs)
      | vNull => exact ⟨rfl, rfl⟩
      | vBool b => cases b <;> exact ⟨rfl, rfl⟩
      | vArr elems => exact ⟨rfl, rfl⟩
      | vStr s => cases ht : truthy (Value.vStr s) <;> exact ⟨rfl, rfl⟩
      | vNum n => cases ht : truthy (Value.vNum n) <;> exact ⟨rfl, rfl⟩
    · have h2 : fetchHandler now ⟨"POST", "/render/" ++ "newsletter", .json (.vObj [("data", v)])⟩
          = (match renderEmailTemplate "newsletter" (if truthy v then v else Value.vObj [])
                (.vStr "html") with
             | .ok rr => HttpResponse.json 200 (successPayload rr)
             | .error e => HttpResponse.json 500 (serverErrorPayload e)) := rfl
      rw [h2]
      cases v with
      | vObj fs => exact absurd rfl (hv fs)
      | vNull => exact ⟨rfl, rfl⟩
      | vBool b => cases b <;> exact ⟨rfl, rfl⟩
      | vArr elems => exact ⟨rfl, rfl⟩
      | vStr s => cases ht : truthy (Value.vStr s) <;> exact ⟨rfl, rfl⟩
      | vNum n => cases ht : truthy (Value.vNum n) <;> exact ⟨rfl, rfl⟩
    · have h2 : fetchHandler now
            ⟨"POST", "/render/" ++ "password-reset", .json (.vObj [("data", v)])⟩
          = (match renderEmailTemplate "password-reset" (if truthy v then v else Value.vObj [])
                (.vStr "html") with
             | .ok rr => HttpResponse.json 200 (successPayload rr)
             | .error e => HttpResponse.json 500 (serverErrorPayload e)) := rfl
      rw [h2]
      cases v with
      | vObj fs => exact absurd rfl (hv fs)
      | vNull => exact ⟨rfl, rfl⟩
      | vBool b => cases b <;> exact ⟨rfl, rfl⟩
      | vArr elems => exact ⟨rfl, rfl⟩
      | vStr s => cases ht : truthy (Value.vStr s) <;> exact ⟨rfl, rfl⟩
      | vNum n => cases ht : truthy (Value.vNum n) <;> exact ⟨rfl, rfl⟩
  · intro name hname now
    simp only [templateNames, List.mem_cons, List.not_mem_nil, or_false] at hname
    rcases hname with rfl | rfl | rfl
    · rfl
    · rfl
    · rfl

/-- Witness for the amended C6 at concrete inputs. -/
theorem c6_truthy_nonmap_witness :
    statusOf (fetchHandler "T0"
        ⟨"POST", "/render/newsletter", .json (.vObj [("data", .vStr "foo")])⟩) = 200
    ∧ successFlag (fetchHandler "T0"
        ⟨"POST", "/render/newsletter", .json (.vObj [("data", .vStr "foo")])⟩) = some true
    ∧ fetchHandler "T0" ⟨"POST", "/render/password-reset", .malformed⟩
        = .json 400 invalidJsonPayload := by
  refine ⟨?_, ?_, ?_⟩
  · exact (c6_truthy_nonmap_renders_defaults.1 "newsletter" (by decide) (.vStr "foo")
      (fun fs h => Value.noConfusion h) "T0").1
  · exact (c6_truthy_nonmap_renders_defaults.1 "newsletter" (by decide) (.vStr "foo")
      (fun fs h => Value.noConfusion h) "T0").2
  · exact c6_truthy_nonmap_renders_defaults.2 "password-reset" (by decide) "T0"
